import Mathlib

/-!
# PN532 passport reader firmware: frame codec, command driver, acquisition state machine

A shallow embedding of `firmware-nrf/src/main.c` (with the notifier of
`ble_passport_service.c`).

Conventions of the embedding

* A byte is a `Nat`; every place where the C code stores into a `uint8_t` is an
  explicit reduction modulo 256 (`u8`).  Expressions are evaluated in `int`, as C
  promotes them, hence over `Int`.
* A C array is a `List Nat`.  A local array has indeterminate contents until it
  is written, so the initial contents of `resp` are a parameter of the functions
  that declare it.
* A function that would read or write outside an array has no defined result:
  such functions return `Option`, and `none` stands for the out-of-bounds access.
* The I2C transport is an oracle with a state of its own (`I2cBus`).
* Logging, LEDs, the reset line and sleeps have no effect on the modelled state
  and are left out.
-/

namespace Pn532

/-! ## Constants -/

/-- Value of `EIO` in `errno.h`. -/
def EIO : Int := 5
/-- Value of `EAGAIN` in `errno.h`. -/
def EAGAIN : Int := 11
/-- Value of `ENODEV` in `errno.h`. -/
def ENODEV : Int := 19
/-- Value of `EINVAL` in `errno.h`. -/
def EINVAL : Int := 22

def PN532_PREAMBLE : Nat := 0x00
def PN532_STARTCODE1 : Nat := 0x00
def PN532_STARTCODE2 : Nat := 0xFF
def PN532_POSTAMBLE : Nat := 0x00
def PN532_HOSTTOPN532 : Nat := 0xD4
def PN532_PN532TOHOST : Nat := 0xD5
def PN532_CMD_GETFIRMWAREVERSION : Nat := 0x02
def PN532_CMD_SAMCONFIGURATION : Nat := 0x14
def PN532_CMD_INLISTPASSIVETARGET : Nat := 0x4A
def PN532_CMD_INDATAEXCHANGE : Nat := 0x40
def PN532_MIFARE_ISO14443A : Nat := 0x00

/-- Size of the local `frame` array of `pn532_write_command` and `pn532_read_response`. -/
def FRAME_SIZE : Nat := 64

/-! ## Machine arithmetic -/

/-- Conversion of an `int` value to `uint8_t`. -/
def u8 (z : Int) : Nat := (z % 256).toNat

/-- The C operator `~` on `int` (two's complement). -/
def bnot (z : Int) : Int := -z - 1

/-! ## Frame construction (`pn532_write_command`, main.c 137-163) -/

/-- The loop `for (i = 0; i < cmd_len; i++) dcs += cmd[i];` with `k` iterations left. -/
def dcs_loop (cmd : List Nat) : Nat → Nat → Nat → Nat
  | 0, _, dcs => dcs
  | k + 1, i, dcs => dcs_loop cmd k (i + 1) (u8 ((dcs : Int) + (cmd.getD i 0 : Nat)))

/-- The call `memcpy(&dst[off], src, n)`, for `n ≤ src.length` and
`off + n ≤ dst.length`. -/
def memcpy (dst : List Nat) (off : Nat) (src : List Nat) (n : Nat) : List Nat :=
  dst.take off ++ src.take n ++ dst.drop (off + n)

/-- Body of `pn532_write_command` up to the call of `i2c_write`: the bytes
`frame[0..idx)` handed to the bus.  `frame` is the local array before the first
store.  All stores stay inside the 64-byte array exactly when `cmd_len + 8 ≤ 64`,
and the reads of `cmd` stay inside it when `cmd_len ≤ cmd.length`. -/
def pn532_write_command_frame (frame cmd : List Nat) (cmd_len : Nat) : Option (List Nat) :=
  if cmd_len + 8 ≤ FRAME_SIZE ∧ cmd_len ≤ cmd.length then
    let idx := 0
    let frame := frame.set idx PN532_PREAMBLE
    let idx := idx + 1
    let frame := frame.set idx PN532_STARTCODE1
    let idx := idx + 1
    let frame := frame.set idx PN532_STARTCODE2
    let idx := idx + 1
    let frame := frame.set idx (u8 ((cmd_len : Int) + 1))
    let idx := idx + 1
    let frame := frame.set idx (u8 (bnot ((cmd_len : Int) + 1) + 1))
    let idx := idx + 1
    let frame := frame.set idx PN532_HOSTTOPN532
    let idx := idx + 1
    let frame := memcpy frame idx cmd cmd_len
    let idx := idx + cmd_len
    let dcs := dcs_loop cmd cmd_len 0 PN532_HOSTTOPN532
    let frame := frame.set idx (u8 (bnot (dcs : Int) + 1))
    let idx := idx + 1
    let frame := frame.set idx PN532_POSTAMBLE
    let idx := idx + 1
    some (frame.take idx)
  else none

/-! ## Response parsing (`pn532_read_response`, main.c 194-238) -/

/-- What `pn532_read_response` leaves behind: its return value and the caller's
`resp` array and `resp_len` variable. -/
structure ReadOut where
  ret : Int
  resp : List Nat
  resp_len : Nat
deriving DecidableEq, Repr

/-- The local `offset` of `pn532_read_response`: 1 when the frame starts with the
I2C ready byte `0x01`, else 0. -/
def ready_offset (frame : List Nat) : Nat :=
  if frame.getD 0 0 = 0x01 then 1 else 0

/-- The part of `pn532_read_response` after the 64-byte `frame` has been read.
`cap` is the size of the caller's `resp` array, `resp` and `resp_len` their
contents before the call.  The final `memcpy` reads `frame[offset+6 ..
offset+6+resp_len)` and writes `resp[0..resp_len)`; it is out of bounds when the
source leaves the frame or the destination exceeds `cap`. -/
def pn532_read_response_parse (cap : Nat) (frame resp : List Nat) (resp_len : Nat) :
    Option ReadOut :=
  if frame.getD 0 0 = 0x00 ∧ frame.getD 1 0 = 0x80 then
    some ⟨-EAGAIN, resp, resp_len⟩
  else
    let offset := ready_offset frame
    if frame.getD offset 0 ≠ PN532_PREAMBLE ∨
        frame.getD (offset + 1) 0 ≠ PN532_STARTCODE1 ∨
        frame.getD (offset + 2) 0 ≠ PN532_STARTCODE2 then
      some ⟨-EINVAL, resp, resp_len⟩
    else
      let len := frame.getD (offset + 3) 0
      -- `lcs = frame[offset + 4]` only feeds a warning log
      let resp_len := u8 ((len : Int) - 2)
      if offset + 6 + resp_len ≤ FRAME_SIZE ∧ resp_len ≤ cap then
        some ⟨0, memcpy resp 0 (frame.drop (offset + 6)) resp_len, resp_len⟩
      else none

/-! ## Transport and command driver -/

/-- The I2C transport as an oracle over a state `σ`.
`write s buf addr` is `i2c_write(i2c_dev, buf, len, addr)` with `buf` the `len`
bytes written; `read s len addr` is `i2c_read(i2c_dev, buf, len, addr)` and
yields the bytes stored into `buf`.  Both give the return value and the next
state of the bus. -/
structure I2cBus (σ : Type) where
  write : σ → List Nat → Nat → Int × σ
  read : σ → Nat → Nat → Int × List Nat × σ

/-- The function `pn532_write_command`: builds the frame and returns what
`i2c_write` returns.  The bytes sent do not depend on the initial contents of the
local `frame` array, which is taken as zeroes here. -/
def pn532_write_command {σ : Type} (bus : I2cBus σ) (addr : Nat) (s : σ)
    (cmd : List Nat) (cmd_len : Nat) : Option (Int × σ) :=
  match pn532_write_command_frame (List.replicate FRAME_SIZE 0) cmd cmd_len with
  | none => none
  | some tx => some (bus.write s tx addr)

/-- The function `pn532_wakeup`: the write result is only logged; always returns 0. -/
def pn532_wakeup {σ : Type} (bus : I2cBus σ) (addr : Nat) (s : σ) : Int × σ :=
  (0, (bus.write s [0x55, 0x55, 0x00, 0x00, 0x00] addr).2)

/-- The function `pn532_read_ack`: reads 7 bytes; a read error is returned, the
content of the acknowledgement is not checked. -/
def pn532_read_ack {σ : Type} (bus : I2cBus σ) (addr : Nat) (s : σ) : Int × σ :=
  let r := bus.read s 7 addr
  if r.1 ≠ 0 then (r.1, r.2.2) else (0, r.2.2)

/-- The function `pn532_read_response`: the acknowledgement read (its result is
only logged), the 64-byte frame read, then the parser.  `cap`, `resp`, `resp_len`
describe the caller's buffer as in `pn532_read_response_parse`. -/
def pn532_read_response {σ : Type} (bus : I2cBus σ) (addr : Nat) (cap : Nat) (s : σ)
    (resp : List Nat) (resp_len : Nat) : Option (ReadOut × σ) :=
  let s1 := (pn532_read_ack bus addr s).2
  let r := bus.read s1 FRAME_SIZE addr
  if r.1 ≠ 0 then some (⟨r.1, resp, resp_len⟩, r.2.2)
  else
    match pn532_read_response_parse cap r.2.1 resp resp_len with
    | none => none
    | some o => some (o, r.2.2)

/-! ## Initialisation (`pn532_init`, main.c 251-346) -/

/-- Locals of `pn532_init` that live across loop iterations, with the bus. -/
structure InitSt (σ : Type) where
  bus : σ
  resp : List Nat
  resp_len : Nat

/-- One iteration of the retry loop (main.c 283-306): `true` when `found` is set. -/
def fw_attempt {σ : Type} (bus : I2cBus σ) (addr : Nat) (st : InitSt σ) :
    Option (Bool × InitSt σ) :=
  match pn532_write_command bus addr st.bus [PN532_CMD_GETFIRMWAREVERSION] 1 with
  | none => none
  | some (ret, s1) =>
    if ret ≠ 0 then some (false, { st with bus := s1 })
    else
      match pn532_read_response bus addr 32 s1 st.resp st.resp_len with
      | none => none
      | some (o, s2) =>
        some (decide (o.ret = 0 ∧ o.resp.getD 0 0 = PN532_CMD_GETFIRMWAREVERSION + 1),
          ⟨s2, o.resp, o.resp_len⟩)

/-- The loop `for (retry = 0; retry < 3; retry++)` with `k` iterations left. -/
def fw_retry_loop {σ : Type} (bus : I2cBus σ) (addr : Nat) :
    Nat → InitSt σ → Option (Bool × InitSt σ)
  | 0, st => some (false, st)
  | k + 1, st =>
    match fw_attempt bus addr st with
    | none => none
    | some (true, st1) => some (true, st1)
    | some (false, st1) => fw_retry_loop bus addr k st1

/-- The loop over the candidate addresses still to try (main.c 272-311).  The
second component is `pn532_i2c_address`, assigned at the top of each iteration. -/
def discovery_loop {σ : Type} (bus : I2cBus σ) :
    List Nat → Nat → InitSt σ → Option (Bool × Nat × InitSt σ)
  | [], addr, st => some (false, addr, st)
  | a :: rest, _, st =>
    match fw_retry_loop bus a 3 { st with bus := (pn532_wakeup bus a st.bus).2 } with
    | none => none
    | some (true, st1) => some (true, a, st1)
    | some (false, st1) => discovery_loop bus rest a st1

/-- The candidate addresses `addresses[] = {0x24, 0x48}`. -/
def addresses : List Nat := [0x24, 0x48]

/-- The function `pn532_init`.  `addr` is `pn532_i2c_address` on entry, `resp` the
initial contents of the local `resp[32]`.  Returns the return value, the new
`pn532_i2c_address` and the bus. -/
def pn532_init {σ : Type} (bus : I2cBus σ) (addr : Nat) (s : σ) (resp : List Nat) :
    Option (Int × Nat × σ) :=
  match discovery_loop bus addresses addr ⟨s, resp, 0⟩ with
  | none => none
  | some (false, a, st) => some (-ENODEV, a, st.bus)
  | some (true, a, st) =>
    match pn532_write_command bus a st.bus [PN532_CMD_SAMCONFIGURATION, 0x01, 0x14, 0x01] 4 with
    | none => none
    | some (ret, s1) =>
      if ret ≠ 0 then some (ret, a, s1)
      else
        match pn532_read_response bus a 32 s1 st.resp st.resp_len with
        | none => none
        | some (o, s2) => if o.ret ≠ 0 then some (o.ret, a, s2) else some (0, a, s2)

/-! ## Reader state (`passport_reader_t`, `passport_data_t`) -/

inductive passport_state_t where
  | STATE_IDLE
  | STATE_INIT_PN532
  | STATE_WAIT_COMMAND
  | STATE_DETECTING
  | STATE_CARD_DETECTED
  | STATE_SELECTING_APP
  | STATE_READING_DG1
  | STATE_SUCCESS
  | STATE_ERROR
deriving DecidableEq, Repr

inductive passport_status_t where
  | PASSPORT_STATUS_IDLE
  | PASSPORT_STATUS_SCANNING
  | PASSPORT_STATUS_READING
  | PASSPORT_STATUS_SUCCESS
  | PASSPORT_STATUS_ERROR
  | PASSPORT_STATUS_NO_CARD
deriving DecidableEq, Repr

/-- The record `passport_data_t`; the `char` arrays are byte lists of their declared sizes. -/
structure passport_data_t where
  document_number : List Nat
  surname : List Nat
  given_names : List Nat
  nationality : List Nat
  date_of_birth : List Nat
  sex : List Nat
  expiry_date : List Nat
  uid : List Nat
  uid_len : Nat
  photo_available : Nat
deriving DecidableEq, Repr

structure passport_reader_t where
  state : passport_state_t
  uid : List Nat
  uid_len : Nat
  target_number : Nat
  card_present : Bool
  scan_requested : Bool
  passport_data : passport_data_t
deriving DecidableEq, Repr

/-- An all-zero `passport_data_t`. -/
def passport_data_zero : passport_data_t :=
  { document_number := List.replicate 10 0
    surname := List.replicate 40 0
    given_names := List.replicate 40 0
    nationality := List.replicate 4 0
    date_of_birth := List.replicate 9 0
    sex := List.replicate 2 0
    expiry_date := List.replicate 9 0
    uid := List.replicate 10 0
    uid_len := 0
    photo_available := 0 }

/-- The reader after `memset(&reader, 0, sizeof(reader))`, which is also its
static initialiser `{0}`; the enumerator with value 0 is `STATE_IDLE`. -/
def reader_zero : passport_reader_t :=
  { state := .STATE_IDLE
    uid := List.replicate 10 0
    uid_len := 0
    target_number := 0
    card_present := false
    scan_requested := false
    passport_data := passport_data_zero }

/-! ## Card session -/

/-- The function `pn532_detect_card`.  `resp` is the initial contents of the local
`resp[32]`.  The copy into `reader.uid` is out of bounds when `uid_len` exceeds
the 10-byte field or `7 + uid_len` exceeds the 32-byte `resp`. -/
def pn532_detect_card {σ : Type} (bus : I2cBus σ) (addr : Nat) (resp : List Nat)
    (reader : passport_reader_t) (s : σ) : Option (Int × passport_reader_t × σ) :=
  match pn532_write_command bus addr s
      [PN532_CMD_INLISTPASSIVETARGET, 0x01, PN532_MIFARE_ISO14443A] 3 with
  | none => none
  | some (ret, s1) =>
    if ret ≠ 0 then some (ret, reader, s1)
    else
      match pn532_read_response bus addr 32 s1 resp 0 with
      | none => none
      | some (o, s2) =>
        if o.ret ≠ 0 then some (o.ret, reader, s2)
        else if o.resp.getD 0 0 ≠ PN532_CMD_INLISTPASSIVETARGET + 1 then
          some (-EINVAL, reader, s2)
        else
          let num_targets := o.resp.getD 1 0
          if num_targets = 0 then some (-ENODEV, reader, s2)
          else
            let uid_len := o.resp.getD 6 0
            if uid_len ≤ 10 ∧ 7 + uid_len ≤ 32 then
              let uid := memcpy reader.uid 0 (o.resp.drop 7) uid_len
              some (0,
                { reader with
                  target_number := o.resp.getD 2 0
                  uid_len := uid_len
                  uid := uid
                  passport_data :=
                    { reader.passport_data with
                      uid := memcpy reader.passport_data.uid 0 uid uid_len
                      uid_len := uid_len }
                  card_present := true }, s2)
            else none

/-- The constant `SELECT_EPASSPORT_APP`. -/
def SELECT_EPASSPORT_APP : List Nat :=
  [0x00, 0xA4, 0x04, 0x0C, 0x07, 0xA0, 0x00, 0x00, 0x02, 0x47, 0x10, 0x01]

/-- The function `select_passport_application`.  `resp` is the initial contents
of the local `resp[256]`. -/
def select_passport_application {σ : Type} (bus : I2cBus σ) (addr : Nat) (resp : List Nat)
    (reader : passport_reader_t) (s : σ) : Option (Int × σ) :=
  match pn532_write_command bus addr s
      ([PN532_CMD_INDATAEXCHANGE, reader.target_number] ++ SELECT_EPASSPORT_APP)
      (SELECT_EPASSPORT_APP.length + 2) with
  | none => none
  | some (ret, s1) =>
    if ret ≠ 0 then some (ret, s1)
    else
      match pn532_read_response bus addr 256 s1 resp 0 with
      | none => none
      | some (o, s2) =>
        if o.ret ≠ 0 then some (o.ret, s2)
        else if o.resp_len ≥ 4 ∧ o.resp.getD (o.resp_len - 2) 0 = 0x90 ∧
            o.resp.getD (o.resp_len - 1) 0 = 0x00 then some (0, s2)
        else some (- EIO, s2)

/-- The call `strncpy(dst, src, n)` for a string `src` given without its terminator:
the first `n` bytes of `src` followed by zero padding up to `n`. -/
def strncpy (src : List Nat) (n : Nat) : List Nat :=
  (src ++ List.replicate n 0).take n

/-- The function `read_passport_mrz`: fills the record with the fixed
demonstration data and returns 0. -/
def read_passport_mrz (reader : passport_reader_t) : Int × passport_reader_t :=
  (0,
    { reader with
      passport_data :=
        { reader.passport_data with
          -- "A12345678"
          document_number := strncpy [0x41, 0x31, 0x32, 0x33, 0x34, 0x35, 0x36, 0x37, 0x38] 10
          -- "DOE"
          surname := strncpy [0x44, 0x4F, 0x45] 40
          -- "JOHN"
          given_names := strncpy [0x4A, 0x4F, 0x48, 0x4E] 40
          -- "USA"
          nationality := strncpy [0x55, 0x53, 0x41] 4
          -- "19900101"
          date_of_birth := strncpy [0x31, 0x39, 0x39, 0x30, 0x30, 0x31, 0x30, 0x31] 9
          -- "M"
          sex := strncpy [0x4D] 2
          -- "20301231"
          expiry_date := strncpy [0x32, 0x30, 0x33, 0x30, 0x31, 0x32, 0x33, 0x31] 9
          photo_available := 0 } })

/-! ## Notifier, command handler, state machine -/

/-- A call of the notifier: `ble_passport_send_status` or `ble_passport_send_data`. -/
inductive Notification where
  | status (st : passport_status_t)
  | data (d : passport_data_t)
deriving DecidableEq, Repr

/-- The firmware's globals together with the bus and the notifier calls made so
far, oldest first. -/
structure World (σ : Type) where
  reader : passport_reader_t
  pn532_i2c_address : Nat
  bus : σ
  sent : List Notification

def PASSPORT_CMD_START_SCAN : Nat := 0x01
def PASSPORT_CMD_STOP_SCAN : Nat := 0x02
def PASSPORT_CMD_GET_DATA : Nat := 0x03
def PASSPORT_CMD_RESET : Nat := 0x04

/-- The function `handle_ble_command`, called with the byte written to the
control characteristic. -/
def handle_ble_command {σ : Type} (cmd : Nat) (w : World σ) : World σ :=
  if cmd = PASSPORT_CMD_START_SCAN then
    { w with
      reader := { w.reader with scan_requested := true }
      sent := w.sent ++ [.status .PASSPORT_STATUS_SCANNING] }
  else if cmd = PASSPORT_CMD_STOP_SCAN then
    { w with
      reader := { w.reader with scan_requested := false, state := .STATE_WAIT_COMMAND }
      sent := w.sent ++ [.status .PASSPORT_STATUS_IDLE] }
  else if cmd = PASSPORT_CMD_GET_DATA then
    if w.reader.card_present then
      { w with sent := w.sent ++ [.data w.reader.passport_data] }
    else w
  else if cmd = PASSPORT_CMD_RESET then
    { w with
      reader := { reader_zero with state := .STATE_WAIT_COMMAND }
      sent := w.sent ++ [.status .PASSPORT_STATUS_IDLE] }
  else w

/-- One call of `passport_state_machine`.  `junk` is the initial contents of the
local `resp` array of the driver function this tick calls. -/
def passport_state_machine {σ : Type} (bus : I2cBus σ) (junk : List Nat) (w : World σ) :
    Option (World σ) :=
  match w.reader.state with
  | .STATE_IDLE => some { w with reader := { w.reader with state := .STATE_INIT_PN532 } }
  | .STATE_INIT_PN532 =>
    match pn532_init bus w.pn532_i2c_address w.bus junk with
    | none => none
    | some (ret, a, s) =>
      if ret = 0 then
        some
          { reader := { w.reader with state := .STATE_WAIT_COMMAND }
            pn532_i2c_address := a
            bus := s
            sent := w.sent ++ [.status .PASSPORT_STATUS_IDLE] }
      else
        some
          { reader := { w.reader with state := .STATE_ERROR }
            pn532_i2c_address := a
            bus := s
            sent := w.sent ++ [.status .PASSPORT_STATUS_ERROR] }
  | .STATE_WAIT_COMMAND =>
    if w.reader.scan_requested then
      some { w with reader := { w.reader with state := .STATE_DETECTING } }
    else some w
  | .STATE_DETECTING =>
    if ¬ w.reader.scan_requested then
      some { w with reader := { w.reader with state := .STATE_WAIT_COMMAND } }
    else
      match pn532_detect_card bus w.pn532_i2c_address junk w.reader w.bus with
      | none => none
      | some (ret, r, s) =>
        if ret = 0 then
          some
            { w with
              reader := { r with state := .STATE_CARD_DETECTED }
              bus := s
              sent := w.sent ++ [.status .PASSPORT_STATUS_SCANNING] }
        else
          some
            { w with
              reader := r
              bus := s
              sent := w.sent ++ [.status .PASSPORT_STATUS_SCANNING] }
  | .STATE_CARD_DETECTED =>
    some
      { w with
        reader := { w.reader with state := .STATE_SELECTING_APP }
        sent := w.sent ++ [.status .PASSPORT_STATUS_READING] }
  | .STATE_SELECTING_APP =>
    match select_passport_application bus w.pn532_i2c_address junk w.reader w.bus with
    | none => none
    | some (ret, s) =>
      if ret = 0 then
        some { w with reader := { w.reader with state := .STATE_READING_DG1 }, bus := s }
      else
        some
          { w with
            reader := { w.reader with state := .STATE_ERROR }
            bus := s
            sent := w.sent ++ [.status .PASSPORT_STATUS_ERROR] }
  | .STATE_READING_DG1 =>
    let r := read_passport_mrz w.reader
    if r.1 = 0 then some { w with reader := { r.2 with state := .STATE_SUCCESS } }
    else some { w with reader := { r.2 with state := .STATE_ERROR } }
  | .STATE_SUCCESS =>
    some
      { w with
        reader := { w.reader with card_present := false, state := .STATE_WAIT_COMMAND }
        sent := w.sent ++
          [.status .PASSPORT_STATUS_SUCCESS, .data w.reader.passport_data] }
  | .STATE_ERROR =>
    some
      { w with
        reader := { reader_zero with state := .STATE_WAIT_COMMAND }
        sent := w.sent ++ [.status .PASSPORT_STATUS_ERROR] }

/-- Consecutive calls of `passport_state_machine`, one per element of `junks`;
returns the world after each call, in order. -/
def run_ticks {σ : Type} (bus : I2cBus σ) : List (List Nat) → World σ → Option (List (World σ))
  | [], _ => some []
  | j :: js, w =>
    match passport_state_machine bus j w with
    | none => none
    | some w1 =>
      match run_ticks bus js w1 with
      | none => none
      | some ws => some (w1 :: ws)

/-- What happens to the firmware between two observations: one call of
`passport_state_machine` (with the initial contents of the local `resp` array of
the driver function it calls), or one operator command delivered to
`handle_ble_command`. -/
inductive Event where
  | tick (junk : List Nat)
  | command (cmd : Nat)

/-- The effect of one event. -/
def step {σ : Type} (bus : I2cBus σ) : Event → World σ → Option (World σ)
  | .tick junk, w => passport_state_machine bus junk w
  | .command cmd, w => some (handle_ble_command cmd w)

/-- The worlds after each event of a sequence, in order. -/
def run_events {σ : Type} (bus : I2cBus σ) : List Event → World σ → Option (List (World σ))
  | [], _ => some []
  | e :: es, w =>
    match step bus e w with
    | none => none
    | some w1 =>
      match run_events bus es w1 with
      | none => none
      | some ws => some (w1 :: ws)

/-- The static initialiser of the firmware's globals, with `reader.state =
STATE_IDLE` as `main` sets it before the first tick. -/
def world_boot {σ : Type} (s : σ) : World σ :=
  { reader := reader_zero
    pn532_i2c_address := 0x24
    bus := s
    sent := [] }

/-- The stores of `pn532_write_command` (main.c 142-158) on the memory that starts
at `frame[0]`, without regard to the size of the array: the memory after the last
store and the final value of the `uint8_t idx`, the length handed to `i2c_write`. -/
def pn532_write_command_stores (mem cmd : List Nat) (cmd_len : Nat) : List Nat × Nat :=
  let idx := 0
  let mem := mem.set idx PN532_PREAMBLE
  let idx := u8 ((idx : Int) + 1)
  let mem := mem.set idx PN532_STARTCODE1
  let idx := u8 ((idx : Int) + 1)
  let mem := mem.set idx PN532_STARTCODE2
  let idx := u8 ((idx : Int) + 1)
  let mem := mem.set idx (u8 ((cmd_len : Int) + 1))
  let idx := u8 ((idx : Int) + 1)
  let mem := mem.set idx (u8 (bnot ((cmd_len : Int) + 1) + 1))
  let idx := u8 ((idx : Int) + 1)
  let mem := mem.set idx PN532_HOSTTOPN532
  let idx := u8 ((idx : Int) + 1)
  let mem := memcpy mem idx cmd cmd_len
  let idx := u8 ((idx : Int) + cmd_len)
  let dcs := dcs_loop cmd cmd_len 0 PN532_HOSTTOPN532
  let mem := mem.set idx (u8 (bnot (dcs : Int) + 1))
  let idx := u8 ((idx : Int) + 1)
  let mem := mem.set idx PN532_POSTAMBLE
  let idx := u8 ((idx : Int) + 1)
  (mem, idx)

/-! ## Simulated buses -/

/-- A bus together with the list of the writes made on it, oldest first, each
with its address and bytes.  The underlying bus behaves as before. -/
def traced {σ : Type} (bus : I2cBus σ) : I2cBus (σ × List (Nat × List Nat)) :=
  { write := fun s buf addr =>
      ((bus.write s.1 buf addr).1, ((bus.write s.1 buf addr).2, s.2 ++ [(addr, buf)]))
    read := fun s len addr =>
      ((bus.read s.1 len addr).1, (bus.read s.1 len addr).2.1,
        ((bus.read s.1 len addr).2.2, s.2)) }

/-- A bus that acknowledges every write and answers every read with the first
`len` bytes of one fixed buffer. -/
def fixedBus (frame : List Nat) : I2cBus Unit :=
  { write := fun s _ _ => (0, s)
    read := fun s len _ => (0, frame.take len, s) }

/-- A well-formed device-to-host frame for `payload` as it lies in the driver's
64-byte read buffer: `00 00 FF LEN LCS D5 payload DCS 00` with
`LEN = len(payload) + 1`, `LCS = -LEN mod 256`,
`DCS = -(0xD5 + sum payload) mod 256`, followed by zero bytes. -/
def device_frame (payload : List Nat) : List Nat :=
  [0x00, 0x00, 0xFF, payload.length + 1, (256 - (payload.length + 1)) % 256,
      PN532_PN532TOHOST] ++ payload ++
    [(256 - (PN532_PN532TOHOST + payload.sum) % 256) % 256, 0x00] ++
    List.replicate (FRAME_SIZE - (payload.length + 8)) 0

/-- Payload of a list-passive-target response with one target: response code `4B`,
count 1, target number 1, SENS_RES `00 04`, SEL_RES `20`, uid length 4 and the uid
`DE AD BE EF`. -/
def target_payload : List Nat :=
  [0x4B, 0x01, 0x01, 0x00, 0x04, 0x20, 0x04, 0xDE, 0xAD, 0xBE, 0xEF]

/-- Payload of a data-exchange response: response code `41`, status `00`, and the
card's status word `90 00`. -/
def select_ok_payload : List Nat := [0x41, 0x00, 0x90, 0x00]

/-- A reader module with one card in the field.  The state of the bus is the
command code of the last frame written (byte 6 of the frame); every write is
acknowledged; a read after list-passive-target answers `target_payload`, a read
after data-exchange answers `select_ok_payload`, any other read answers the
not-ready pattern. -/
def cardBus : I2cBus Nat :=
  { write := fun _ buf _ => (0, buf.getD 6 0)
    read := fun s len _ =>
      if s = PN532_CMD_INLISTPASSIVETARGET then (0, (device_frame target_payload).take len, s)
      else if s = PN532_CMD_INDATAEXCHANGE then
        (0, (device_frame select_ok_payload).take len, s)
      else (0, (List.replicate FRAME_SIZE 0x80).set 0 0x00 |>.take len, s) }

/-- The world in `STATE_WAIT_COMMAND` after a successful initialisation at
address `0x24`, with nothing notified yet. -/
def world_ready : World Nat :=
  { reader := { reader_zero with state := .STATE_WAIT_COMMAND }
    pn532_i2c_address := 0x24
    bus := 0
    sent := [] }

/-- A reader module with one card in the field whose answer to the
select-application exchange is `41 00 90 00 00`: the bytes the decoder hands to
`select_passport_application` are then `41 00 90 00`.  Otherwise as `cardBus`. -/
def cardBus5 : I2cBus Nat :=
  { write := fun _ buf _ => (0, buf.getD 6 0)
    read := fun s len _ =>
      if s = PN532_CMD_INLISTPASSIVETARGET then (0, (device_frame target_payload).take len, s)
      else if s = PN532_CMD_INDATAEXCHANGE then
        (0, (device_frame [0x41, 0x00, 0x90, 0x00, 0x00]).take len, s)
      else (0, (List.replicate FRAME_SIZE 0x80).set 0 0x00 |>.take len, s) }

/-- A bus without any device: every transfer fails with `-EIO`. -/
def deadBus : I2cBus Unit :=
  { write := fun s _ _ => (- EIO, s)
    read := fun s _ _ => (- EIO, [], s) }

/-! ## Predicates used in the statements -/

/-- Every detection attempt at `addr` fails: `pn532_detect_card` returns a
non-zero value, whatever the reader, the bus state and the stack contents. -/
def detect_fails {σ : Type} (bus : I2cBus σ) (addr : Nat) : Prop :=
  ∀ (junk : List Nat) (reader : passport_reader_t) (s : σ),
    ∃ ret r s1, pn532_detect_card bus addr junk reader s = some (ret, r, s1) ∧ ret ≠ 0

/-- A phase after initialisation: neither `STATE_IDLE` nor `STATE_INIT_PN532`. -/
def past_init (st : passport_state_t) : Prop :=
  st ≠ .STATE_IDLE ∧ st ≠ .STATE_INIT_PN532

/-- A world in `STATE_DETECTING` with a scan requested, on a bus without state. -/
def world_detecting : World Unit :=
  { reader := { reader_zero with state := .STATE_DETECTING, scan_requested := true }
    pn532_i2c_address := 0x24
    bus := ()
    sent := [] }

/-- Payload of a list-passive-target response that announces a uid of 11 bytes. -/
def long_uid_payload : List Nat :=
  [0x4B, 0x01, 0x01, 0x00, 0x04, 0x20, 0x0B] ++ List.replicate 11 0x11

/-- The value `pn532_read_response` stores into `*resp_len` (main.c 233) for a
frame that passes the preamble check: `len - 2` as a `uint8_t`, with
`len = frame[offset + 3]`. -/
def reported_len (frame : List Nat) : Nat :=
  u8 ((frame.getD (ready_offset frame + 3) 0 : Int) - 2)

/-- A 64-byte read buffer that holds the PN532 acknowledgement frame
`00 00 FF 00 FF 00`, whose `LEN` byte is 0, followed by zero bytes. -/
def ack_frame : List Nat :=
  [0x00, 0x00, 0xFF, 0x00, 0xFF, 0x00] ++ List.replicate 58 0

/-- A 64-byte read buffer with a valid preamble, the length byte `len`, its
length checksum and the device-to-host marker, followed by zero bytes. -/
def len_frame (len : Nat) : List Nat :=
  [0x00, 0x00, 0xFF, len, (256 - len) % 256, PN532_PN532TOHOST] ++ List.replicate 58 0

/-- Contents of the stack where `resp[32]` of `pn532_detect_card` lies, as an
earlier detection of the card of `target_payload` left them: the ten bytes the
decoder delivered, the rest zero. -/
def stale_resp : List Nat :=
  [0x4B, 0x01, 0x01, 0x00, 0x04, 0x20, 0x04, 0xDE, 0xAD, 0xBE] ++ List.replicate 22 0

/-- No scan has been asked for and none is under way: `scan_requested` is clear
and the state is one of Idle, Init, WaitCommand, Error. -/
def unstarted (r : passport_reader_t) : Prop :=
  r.scan_requested = false ∧
    (r.state = .STATE_IDLE ∨ r.state = .STATE_INIT_PN532 ∨
      r.state = .STATE_WAIT_COMMAND ∨ r.state = .STATE_ERROR)

theorem take_succ_set (l : List Nat) (i v : Nat) (h : i < l.length) :
    (l.set i v).take (i + 1) = l.take i ++ [v] := by
  induction l generalizing i with
  | nil => simp at h
  | cons a t ih =>
    cases i with
    | zero => simp
    | succ j =>
      have hj : j < t.length := by simpa using h
      simp [ih j hj]

theorem memcpy_zero (dst src : List Nat) (n : Nat) :
    memcpy dst 0 src n = src.take n ++ dst.drop n := by
  simp [memcpy]

/-- The checksum loop adds the first `k` bytes from index `i` on, modulo 256. -/
theorem dcs_loop_eq (cmd : List Nat) :
    ∀ (k i dcs : Nat), i + k ≤ cmd.length → dcs < 256 →
      dcs_loop cmd k i dcs = (dcs + ((cmd.drop i).take k).sum) % 256 := by
  intro k
  induction k with
  | zero => intro i dcs _ hd; simp [dcs_loop]; omega
  | succ k ih =>
    intro i dcs hi hd
    have hlt : i < cmd.length := by omega
    have hu : u8 ((dcs : Int) + (cmd.getD i 0 : Nat)) = (dcs + cmd.getD i 0) % 256 := by
      unfold u8; omega
    rw [dcs_loop, hu, ih (i + 1) _ (by omega) (Nat.mod_lt _ (by decide)),
      List.drop_eq_getElem_cons hlt, List.getD_eq_getElem _ _ hlt]
    simp only [List.take_succ_cons, List.sum_cons]
    omega

/-! ## Frame codec -/

/-- The transmitted bytes, for any initial contents of the 64-byte `frame` array. -/
theorem write_frame_eq (frame P : List Nat) (hf : frame.length = 64) (hP : P.length ≤ 56) :
    pn532_write_command_frame frame P P.length =
      some ([0x00, 0x00, 0xFF, P.length + 1, (256 - (P.length + 1)) % 256, 0xD4] ++ P ++
        [(256 - (0xD4 + P.sum) % 256) % 256, 0x00]) := by
  have hd := dcs_loop_eq P P.length 0 PN532_HOSTTOPN532 (by omega) (by decide)
  simp only [List.drop_zero, List.take_length] at hd
  unfold pn532_write_command_frame
  rw [if_pos ⟨by unfold FRAME_SIZE; omega, le_refl _⟩]
  simp only [hd, Nat.zero_add, Nat.reduceAdd]
  set f1 := frame.set 0 PN532_PREAMBLE with hf1
  set f2 := f1.set 1 PN532_STARTCODE1 with hf2
  set f3 := f2.set 2 PN532_STARTCODE2 with hf3
  set f4 := f3.set 3 (u8 ((P.length : Int) + 1)) with hf4
  set f5 := f4.set 4 (u8 (bnot ((P.length : Int) + 1) + 1)) with hf5
  set f6 := f5.set 5 PN532_HOSTTOPN532 with hf6
  have l1 : f1.length = 64 := by simp [hf1, hf]
  have l2 : f2.length = 64 := by simp [hf2, l1]
  have l3 : f3.length = 64 := by simp [hf3, l2]
  have l4 : f4.length = 64 := by simp [hf4, l3]
  have l5 : f5.length = 64 := by simp [hf5, l4]
  have l6 : f6.length = 64 := by simp [hf6, l5]
  have t6 : f6.take 6 = [0x00, 0x00, 0xFF, u8 ((P.length : Int) + 1),
      u8 (bnot ((P.length : Int) + 1) + 1), 0xD4] := by
    rw [hf6, take_succ_set _ 5 _ (by omega), hf5, take_succ_set _ 4 _ (by omega),
      hf4, take_succ_set _ 3 _ (by omega), hf3, take_succ_set _ 2 _ (by omega),
      hf2, take_succ_set _ 1 _ (by omega), hf1, take_succ_set _ 0 _ (by omega)]
    simp [PN532_PREAMBLE, PN532_STARTCODE1, PN532_STARTCODE2, PN532_HOSTTOPN532]
  have hm : (memcpy f6 6 P P.length).length = 64 := by
    simp [memcpy, l6]; omega
  have tm : (memcpy f6 6 P P.length).take (6 + P.length) = f6.take 6 ++ P := by
    unfold memcpy
    rw [List.take_length, List.take_left' (by simp [l6])]
  rw [take_succ_set _ _ _ (by simp [hm]; omega), take_succ_set _ _ _ (by omega), tm, t6]
  have e1 : u8 ((P.length : Int) + 1) = P.length + 1 := by unfold u8; omega
  have e2 : u8 (bnot ((P.length : Int) + 1) + 1) = (256 - (P.length + 1)) % 256 := by
    unfold u8 bnot; omega
  have e3 : u8 (bnot (((PN532_HOSTTOPN532 + P.sum) % 256 : Nat) : Int) + 1) =
      (256 - (0xD4 + P.sum) % 256) % 256 := by
    have h212 : PN532_HOSTTOPN532 = 212 := rfl
    rw [h212]; unfold u8 bnot; omega
  rw [e1, e2, e3]
  simp [PN532_POSTAMBLE]

/-- The parser on a buffer that starts with a header `00 00 FF (n+1) lcs tfi`
followed by `n` payload bytes: it reports `n - 1` bytes and delivers the payload
without its last byte, because it takes the payload length to be `LEN - 2`. -/
theorem parse_header_payload (cap : Nat) (P rest resp : List Nat) (resp_len lcs tfi : Nat)
    (h1 : 1 ≤ P.length) (hP : P.length ≤ 59) (hcap : P.length - 1 ≤ cap) :
    pn532_read_response_parse cap
        ([0x00, 0x00, 0xFF, P.length + 1, lcs, tfi] ++ P ++ rest) resp resp_len =
      some ⟨0, P.take (P.length - 1) ++ resp.drop (P.length - 1), P.length - 1⟩ := by
  have hu : u8 ((P.length : Int) + 1 - 2) = P.length - 1 := by unfold u8; omega
  have ht : List.take (P.length - 1) (P ++ rest) = List.take (P.length - 1) P :=
    List.take_append_of_le_length (by omega)
  simp [pn532_read_response_parse, ready_offset, PN532_PREAMBLE, PN532_STARTCODE1,
    PN532_STARTCODE2, FRAME_SIZE, memcpy_zero, hu, ht]
  omega

/-- Parsing a transmitted frame, read back into the read buffer with any padding
after it: every payload of 1 to 56 bytes comes back one byte short. -/
theorem parse_written_frame (cap : Nat) (P pad resp : List Nat) (resp_len : Nat)
    (h1 : 1 ≤ P.length) (hP : P.length ≤ 56) (hcap : P.length - 1 ≤ cap) :
    pn532_read_response_parse cap
        ([0x00, 0x00, 0xFF, P.length + 1, (256 - (P.length + 1)) % 256, 0xD4] ++ P ++
          [(256 - (0xD4 + P.sum) % 256) % 256, 0x00] ++ pad) resp resp_len =
      some ⟨0, P.take (P.length - 1) ++ resp.drop (P.length - 1), P.length - 1⟩ := by
  rw [List.append_assoc]
  exact parse_header_payload cap P _ resp resp_len _ _ h1 (by omega) hcap

/-- The parser on a well-formed device frame: the payload comes back one byte
short. -/
theorem parse_device_frame (cap : Nat) (payload resp : List Nat) (resp_len : Nat)
    (h1 : 1 ≤ payload.length) (hP : payload.length ≤ 56) (hcap : payload.length - 1 ≤ cap) :
    pn532_read_response_parse cap (device_frame payload) resp resp_len =
      some ⟨0, payload.take (payload.length - 1) ++ resp.drop (payload.length - 1),
        payload.length - 1⟩ := by
  unfold device_frame
  rw [List.append_assoc]
  exact parse_header_payload cap payload _ resp resp_len _ _ h1 (by omega) hcap

/-- C1, evaluated on the code: the frame `pn532_write_command` builds for the
list-passive-target command `4A 01 00`, read back through the parser of
`pn532_read_response`, yields success with length 2 and payload `4A 01`: the last
payload byte is lost, so the round trip does not return the payload. -/
theorem roundtrip_loses_last_byte :
    pn532_write_command_frame (List.replicate 64 0) [0x4A, 0x01, 0x00] 3 =
        some [0x00, 0x00, 0xFF, 0x04, 0xFC, 0xD4, 0x4A, 0x01, 0x00, 0xE1, 0x00] ∧
      pn532_read_response_parse 32
          ([0x00, 0x00, 0xFF, 0x04, 0xFC, 0xD4, 0x4A, 0x01, 0x00, 0xE1, 0x00] ++
            List.replicate 53 0)
          (List.replicate 32 0) 0 =
        some ⟨0, [0x4A, 0x01] ++ List.replicate 30 0, 2⟩ := by
  decide

/-- C2: for a payload `P` of `n ≤ 56` bytes, whatever the 64-byte `frame` array
held before, `pn532_write_command` hands to `i2c_write` exactly
`00 00 FF (n+1) LCS D4 P DCS 00` with `LCS = -(n+1) mod 256` and
`DCS = -(0xD4 + sum P) mod 256`; this sequence has `n + 8` bytes and carries `P`
verbatim at offset 6. -/
theorem write_command_frame_layout {σ : Type} (bus : I2cBus σ) (addr : Nat) (s : σ)
    (frame P : List Nat) (hf : frame.length = 64) (hP : P.length ≤ 56) :
    pn532_write_command_frame frame P P.length =
        some ([0x00, 0x00, 0xFF, P.length + 1, (256 - (P.length + 1)) % 256, 0xD4] ++ P ++
          [(256 - (0xD4 + P.sum) % 256) % 256, 0x00]) ∧
      pn532_write_command bus addr s P P.length =
        some (bus.write s
          ([0x00, 0x00, 0xFF, P.length + 1, (256 - (P.length + 1)) % 256, 0xD4] ++ P ++
            [(256 - (0xD4 + P.sum) % 256) % 256, 0x00]) addr) ∧
      ([0x00, 0x00, 0xFF, P.length + 1, (256 - (P.length + 1)) % 256, 0xD4] ++ P ++
          [(256 - (0xD4 + P.sum) % 256) % 256, 0x00]).length = P.length + 8 ∧
      (([0x00, 0x00, 0xFF, P.length + 1, (256 - (P.length + 1)) % 256, 0xD4] ++ P ++
          [(256 - (0xD4 + P.sum) % 256) % 256, 0x00]).drop 6).take P.length = P := by
  refine ⟨write_frame_eq frame P hf hP, ?_, ?_, ?_⟩
  · unfold pn532_write_command
    rw [write_frame_eq _ P (by simp [FRAME_SIZE]) hP]
  · simp
  · simp

theorem write_command_frame_layout_witness :
    (List.replicate 64 0xAA).length = 64 ∧ [0x4A, 0x01, 0x00].length ≤ 56 ∧
      pn532_write_command (fixedBus []) 0x24 () [0x4A, 0x01, 0x00] 3 =
        some ((fixedBus []).write ()
          [0x00, 0x00, 0xFF, 0x04, 0xFC, 0xD4, 0x4A, 0x01, 0x00, 0xE1, 0x00] 0x24) :=
  ⟨by decide, by decide,
    (write_command_frame_layout (fixedBus []) 0x24 () (List.replicate 64 0xAA)
      [0x4A, 0x01, 0x00] (by decide) (by decide)).2.1⟩

/-- C3: for a payload `P` of at most 56 bytes the frame `pn532_write_command`
builds exists and satisfies `(LEN + LCS) mod 256 = 0` for the bytes at offsets 3
and 4, and `(0xD4 + sum P + DCS) mod 256 = 0` for its second-to-last byte. -/
theorem write_command_checksums (frame P : List Nat) (hf : frame.length = 64)
    (hP : P.length ≤ 56) :
    ∃ tx, pn532_write_command_frame frame P P.length = some tx ∧
      (tx.getD 3 0 + tx.getD 4 0) % 256 = 0 ∧
      (0xD4 + P.sum + tx.getD (tx.length - 2) 0) % 256 = 0 := by
  refine ⟨_, write_frame_eq frame P hf hP, ?_, ?_⟩
  · simp only [List.cons_append, List.getD_cons_succ, List.getD_cons_zero]
    omega
  · have hidx : ([0x00, 0x00, 0xFF, P.length + 1, (256 - (P.length + 1)) % 256, 0xD4] ++ P ++
        [(256 - (0xD4 + P.sum) % 256) % 256, 0x00]).length - 2 =
        ([0x00, 0x00, 0xFF, P.length + 1, (256 - (P.length + 1)) % 256, 0xD4] ++ P).length := by
      simp
    rw [hidx, List.getD_append_right _ _ _ _ (le_refl _)]
    simp only [Nat.sub_self, List.getD_cons_zero]
    omega

theorem write_command_checksums_witness :
    (List.replicate 64 0xAA).length = 64 ∧ [0x4A, 0x01, 0x00].length ≤ 56 ∧
      ∃ tx, pn532_write_command_frame (List.replicate 64 0xAA) [0x4A, 0x01, 0x00] 3 = some tx ∧
        (tx.getD 3 0 + tx.getD 4 0) % 256 = 0 ∧
        (0xD4 + [0x4A, 0x01, 0x00].sum + tx.getD (tx.length - 2) 0) % 256 = 0 :=
  ⟨by decide, by decide,
    write_command_checksums (List.replicate 64 0xAA) [0x4A, 0x01, 0x00] (by decide) (by decide)⟩

/-! ## Response parsing -/

/-- A received frame makes `pn532_read_response` return what the parser returns. -/
theorem read_response_of_read {σ : Type} (bus : I2cBus σ) (addr cap : Nat) (s s1 : σ)
    (frame resp : List Nat) (resp_len : Nat)
    (hrd : bus.read (pn532_read_ack bus addr s).2 FRAME_SIZE addr = (0, frame, s1)) :
    pn532_read_response bus addr cap s resp resp_len =
      (pn532_read_response_parse cap frame resp resp_len).map (fun o => (o, s1)) := by
  unfold pn532_read_response
  simp only [hrd]
  cases pn532_read_response_parse cap frame resp resp_len <;> simp

/-- A frame with a valid preamble whose copy stays in bounds is decoded with
return value 0, without any use of the `LCS` byte. -/
theorem parse_valid_preamble (cap : Nat) (frame resp : List Nat) (resp_len : Nat)
    (hpre : frame.getD (ready_offset frame) 0 = 0x00 ∧
      frame.getD (ready_offset frame + 1) 0 = 0x00 ∧
      frame.getD (ready_offset frame + 2) 0 = 0xFF)
    (h2 : 2 ≤ frame.getD (ready_offset frame + 3) 0)
    (hsrc : ready_offset frame + 4 + frame.getD (ready_offset frame + 3) 0 ≤ 64)
    (hdst : frame.getD (ready_offset frame + 3) 0 - 2 ≤ cap) :
    pn532_read_response_parse cap frame resp resp_len =
      some ⟨0, (frame.drop (ready_offset frame + 6)).take
          (frame.getD (ready_offset frame + 3) 0 - 2) ++
          resp.drop (frame.getD (ready_offset frame + 3) 0 - 2),
        frame.getD (ready_offset frame + 3) 0 - 2⟩ := by
  obtain ⟨p0, p1, p2⟩ := hpre
  have hnr : ¬ (frame.getD 0 0 = 0x00 ∧ frame.getD 1 0 = 0x80) := by
    rintro ⟨a, b⟩
    have h0 : ready_offset frame = 0 := by
      unfold ready_offset
      rw [if_neg (by rw [a]; decide)]
    rw [h0] at p1
    simp only [Nat.zero_add] at p1
    omega
  have hu : u8 ((frame.getD (ready_offset frame + 3) 0 : Int) - 2) =
      frame.getD (ready_offset frame + 3) 0 - 2 := by unfold u8; omega
  unfold pn532_read_response_parse
  rw [if_neg hnr]
  simp only [p0, p1, p2, PN532_PREAMBLE, PN532_STARTCODE1, PN532_STARTCODE2, ne_eq,
    not_true_eq_false, or_self, if_false, hu, memcpy_zero, FRAME_SIZE]
  rw [if_pos ⟨by omega, hdst⟩]

/-- C8 fails on the code: a received frame `00 00 FF 03 00 D5 03 …` has a valid
preamble and `(LEN + LCS) mod 256 = 3`, and `pn532_read_response` returns 0 and
delivers the payload byte `03` instead of failing with `-EINVAL`. -/
theorem lcs_mismatch_accepted :
    (0x03 + 0x00) % 256 ≠ 0 ∧
      pn532_read_response
          (fixedBus ([0x00, 0x00, 0xFF, 0x03, 0x00, 0xD5, 0x03, 0x28, 0x00] ++
            List.replicate 55 0))
          0x24 32 () (List.replicate 32 0xAA) 0 =
        some (⟨0, [0x03] ++ List.replicate 31 0xAA, 1⟩, ()) := by
  decide

/-- C8 as amended: a received 64-byte buffer with a valid `00 00 FF` preamble
(after the optional leading `01`) whose `LEN` and `LCS` bytes do not add up to 0
modulo 256 is decoded all the same: when the `LEN - 2` payload bytes lie inside
the frame and fit the caller's buffer, `pn532_read_response` returns 0, sets the
length to `LEN - 2` and delivers the bytes from offset `offset + 6`. -/
theorem read_response_lcs_mismatch_tolerated {σ : Type} (bus : I2cBus σ) (addr cap : Nat)
    (s s1 : σ) (frame resp : List Nat) (resp_len : Nat)
    (hrd : bus.read (pn532_read_ack bus addr s).2 FRAME_SIZE addr = (0, frame, s1))
    (hlen : frame.length = 64)
    (hpre : frame.getD (ready_offset frame) 0 = 0x00 ∧
      frame.getD (ready_offset frame + 1) 0 = 0x00 ∧
      frame.getD (ready_offset frame + 2) 0 = 0xFF)
    (hlcs : (frame.getD (ready_offset frame + 3) 0 +
      frame.getD (ready_offset frame + 4) 0) % 256 ≠ 0)
    (h2 : 2 ≤ frame.getD (ready_offset frame + 3) 0)
    (hsrc : ready_offset frame + 4 + frame.getD (ready_offset frame + 3) 0 ≤ 64)
    (hdst : frame.getD (ready_offset frame + 3) 0 - 2 ≤ cap) :
    pn532_read_response bus addr cap s resp resp_len =
      some (⟨0, (frame.drop (ready_offset frame + 6)).take
          (frame.getD (ready_offset frame + 3) 0 - 2) ++
          resp.drop (frame.getD (ready_offset frame + 3) 0 - 2),
        frame.getD (ready_offset frame + 3) 0 - 2⟩, s1) := by
  have _ := hlen
  have _ := hlcs
  rw [read_response_of_read bus addr cap s s1 frame resp resp_len hrd,
    parse_valid_preamble cap frame resp resp_len hpre h2 hsrc hdst]
  rfl

theorem read_response_lcs_mismatch_tolerated_witness :
    (0x03 + 0x00) % 256 ≠ 0 ∧
      pn532_read_response
          (fixedBus ([0x00, 0x00, 0xFF, 0x03, 0x00, 0xD5, 0x03, 0x28, 0x00] ++
            List.replicate 55 0))
          0x24 32 () (List.replicate 32 0xAA) 7 =
        some (⟨0, [0x03] ++ List.replicate 31 0xAA, 1⟩, ()) :=
  ⟨by decide,
    (read_response_lcs_mismatch_tolerated
      (fixedBus ([0x00, 0x00, 0xFF, 0x03, 0x00, 0xD5, 0x03, 0x28, 0x00] ++
        List.replicate 55 0))
      0x24 32 () ()
      ([0x00, 0x00, 0xFF, 0x03, 0x00, 0xD5, 0x03, 0x28, 0x00] ++ List.replicate 55 0)
      (List.replicate 32 0xAA) 7 (by decide) (by decide) (by decide) (by decide) (by decide)
      (by decide) (by decide)).trans (by decide)⟩

/-- C9: a received 64-byte buffer that does not start with the not-ready pattern
`00 80` and whose three bytes at the frame start (offset 1 after a leading `01`,
else offset 0) are not `00 00 FF` makes `pn532_read_response` return `-EINVAL`
with the caller's `resp` and `resp_len` as they were. -/
theorem read_response_bad_preamble {σ : Type} (bus : I2cBus σ) (addr cap : Nat)
    (s s1 : σ) (frame resp : List Nat) (resp_len : Nat)
    (hrd : bus.read (pn532_read_ack bus addr s).2 FRAME_SIZE addr = (0, frame, s1))
    (hlen : frame.length = 64)
    (hnr : ¬ (frame.getD 0 0 = 0x00 ∧ frame.getD 1 0 = 0x80))
    (hpre : ¬ (frame.getD (ready_offset frame) 0 = 0x00 ∧
      frame.getD (ready_offset frame + 1) 0 = 0x00 ∧
      frame.getD (ready_offset frame + 2) 0 = 0xFF)) :
    pn532_read_response bus addr cap s resp resp_len =
      some (⟨-EINVAL, resp, resp_len⟩, s1) := by
  have _ := hlen
  rw [read_response_of_read bus addr cap s s1 frame resp resp_len hrd]
  unfold pn532_read_response_parse
  rw [if_neg hnr]
  have hor : frame.getD (ready_offset frame) 0 ≠ PN532_PREAMBLE ∨
      frame.getD (ready_offset frame + 1) 0 ≠ PN532_STARTCODE1 ∨
      frame.getD (ready_offset frame + 2) 0 ≠ PN532_STARTCODE2 := by
    simp only [PN532_PREAMBLE, PN532_STARTCODE1, PN532_STARTCODE2]
    by_contra hc
    push_neg at hc
    exact hpre hc
  simp only [if_pos hor, Option.map_some']

theorem read_response_bad_preamble_witness :
    pn532_read_response (fixedBus ([0x01, 0x00, 0x00, 0xFE] ++ List.replicate 60 0))
        0x24 32 () (List.replicate 32 0xAA) 7 =
      some (⟨-EINVAL, List.replicate 32 0xAA, 7⟩, ()) :=
  read_response_bad_preamble
    (fixedBus ([0x01, 0x00, 0x00, 0xFE] ++ List.replicate 60 0)) 0x24 32 () ()
    ([0x01, 0x00, 0x00, 0xFE] ++ List.replicate 60 0) (List.replicate 32 0xAA) 7
    (by decide) (by decide) (by decide) (by decide)

/-- C10: a received 64-byte buffer whose first two bytes are `00 80` makes
`pn532_read_response` return `-EAGAIN`, whatever follows, with the caller's `resp`
and `resp_len` as they were; `-EAGAIN` differs from 0 and from `-EINVAL`. -/
theorem read_response_not_ready {σ : Type} (bus : I2cBus σ) (addr cap : Nat)
    (s s1 : σ) (frame resp : List Nat) (resp_len : Nat)
    (hrd : bus.read (pn532_read_ack bus addr s).2 FRAME_SIZE addr = (0, frame, s1))
    (hlen : frame.length = 64)
    (h0 : frame.getD 0 0 = 0x00) (h1 : frame.getD 1 0 = 0x80) :
    pn532_read_response bus addr cap s resp resp_len =
        some (⟨-EAGAIN, resp, resp_len⟩, s1) ∧
      -EAGAIN ≠ 0 ∧ -EAGAIN ≠ -EINVAL := by
  have _ := hlen
  refine ⟨?_, by decide, by decide⟩
  rw [read_response_of_read bus addr cap s s1 frame resp resp_len hrd]
  unfold pn532_read_response_parse
  rw [if_pos ⟨h0, h1⟩]
  rfl

theorem read_response_not_ready_witness :
    pn532_read_response (fixedBus ([0x00, 0x80] ++ List.replicate 62 0x80))
        0x24 32 () (List.replicate 32 0xAA) 7 =
      some (⟨-EAGAIN, List.replicate 32 0xAA, 7⟩, ()) :=
  (read_response_not_ready
    (fixedBus ([0x00, 0x80] ++ List.replicate 62 0x80)) 0x24 32 () ()
    ([0x00, 0x80] ++ List.replicate 62 0x80) (List.replicate 32 0xAA) 7
    (by decide) (by decide) (by decide) (by decide)).1

/-! ## Application selection -/

/-- Success of `select_passport_application` requires that the command was
written and the response frame was read. -/
theorem select_success_needs_response {σ : Type} (bus : I2cBus σ) (addr : Nat)
    (resp : List Nat) (reader : passport_reader_t) (s s' : σ)
    (h : select_passport_application bus addr resp reader s = some (0, s')) :
    ∃ s1, pn532_write_command bus addr s
        ([PN532_CMD_INDATAEXCHANGE, reader.target_number] ++ SELECT_EPASSPORT_APP)
        (SELECT_EPASSPORT_APP.length + 2) = some (0, s1) ∧
      (bus.read (pn532_read_ack bus addr s1).2 FRAME_SIZE addr).1 = 0 := by
  unfold select_passport_application at h
  split at h
  · exact absurd h (by simp)
  · next ret s1 hw =>
    by_cases hret : ret = 0
    · subst hret
      refine ⟨s1, hw, ?_⟩
      by_contra hr
      simp only [ne_eq, not_true_eq_false, if_false, pn532_read_response, hr,
        not_false_eq_true, if_true] at h
      simp [hr] at h
    · rw [if_pos hret] at h
      simp only [Option.some.injEq, Prod.mk.injEq] at h
      exact absurd h.1 hret

/-- With the command written and a frame with a valid preamble received, the
result is 0 or `-EIO`, and it is `-EIO` when the frame carries fewer than 4
payload bytes. -/
theorem select_outcome_of_frame {σ : Type} (bus : I2cBus σ) (addr : Nat)
    (resp : List Nat) (reader : passport_reader_t) (s s1 s2 : σ) (frame : List Nat)
    (hw : pn532_write_command bus addr s
        ([PN532_CMD_INDATAEXCHANGE, reader.target_number] ++ SELECT_EPASSPORT_APP)
        (SELECT_EPASSPORT_APP.length + 2) = some (0, s1))
    (hrd : bus.read (pn532_read_ack bus addr s1).2 FRAME_SIZE addr = (0, frame, s2))
    (hpre : frame.getD (ready_offset frame) 0 = 0x00 ∧
      frame.getD (ready_offset frame + 1) 0 = 0x00 ∧
      frame.getD (ready_offset frame + 2) 0 = 0xFF)
    (h2 : 2 ≤ frame.getD (ready_offset frame + 3) 0)
    (hsrc : ready_offset frame + 4 + frame.getD (ready_offset frame + 3) 0 ≤ 64) :
    (select_passport_application bus addr resp reader s = some (0, s2) ∨
        select_passport_application bus addr resp reader s = some (- EIO, s2)) ∧
      (frame.getD (ready_offset frame + 3) 0 - 1 < 4 →
        select_passport_application bus addr resp reader s = some (- EIO, s2)) := by
  have hp := parse_valid_preamble 256 frame resp 0 hpre h2 hsrc (by omega)
  have hr := read_response_of_read bus addr 256 s1 s2 frame resp 0 hrd
  rw [hp] at hr
  unfold select_passport_application
  simp only [hw, hr, Option.map_some', ne_eq, not_true_eq_false, if_false]
  constructor
  · split
    · exact Or.inl rfl
    · exact Or.inr rfl
  · intro hlt
    rw [if_neg (by omega)]

/-- On this code no well-formed response whose payload ends in the status word
`90 00` is accepted: the parser hands over the payload without its last byte, so
the byte compared with `00` is the `90`. -/
theorem select_rejects_status_word {σ : Type} (bus : I2cBus σ) (addr : Nat)
    (resp : List Nat) (reader : passport_reader_t) (s s1 s2 : σ) (pre : List Nat)
    (hw : pn532_write_command bus addr s
        ([PN532_CMD_INDATAEXCHANGE, reader.target_number] ++ SELECT_EPASSPORT_APP)
        (SELECT_EPASSPORT_APP.length + 2) = some (0, s1))
    (hrd : bus.read (pn532_read_ack bus addr s1).2 FRAME_SIZE addr =
      (0, device_frame (pre ++ [0x90, 0x00]), s2))
    (hpre : pre.length + 2 ≤ 56) :
    select_passport_application bus addr resp reader s = some (- EIO, s2) := by
  have hp := parse_device_frame 256 (pre ++ [0x90, 0x00]) resp 0 (by simp)
    (by simpa using hpre) (by simp; omega)
  have hr := read_response_of_read bus addr 256 s1 s2 _ resp 0 hrd
  rw [hp] at hr
  have hlen : (pre ++ [0x90, 0x00]).length - 1 = pre.length + 1 := by simp
  have htake : List.take (pre.length + 1) (pre ++ [0x90, 0x00]) = pre ++ [0x90] := by
    rw [List.take_append]; rfl
  rw [hlen, htake] at hr
  have hlast : (pre ++ [0x90] ++ List.drop (pre.length + 1) resp).getD (pre.length + 1 - 1) 0 =
      0x90 := by
    rw [List.append_assoc, Nat.add_sub_cancel,
      List.getD_append_right _ _ _ _ (le_refl _)]
    simp
  unfold select_passport_application
  simp only [hw, hr, Option.map_some', ne_eq, not_true_eq_false, if_false]
  rw [if_neg]
  rw [hlast]
  simp

/-- A short response is rejected: the well-formed response frame
`00 00 FF 04 FC D5 41 90 00 5A 00` carries the payload `41 90 00`, whose two
bytes before the DCS are `90 00`, and `select_passport_application` returns
`-EIO`: the code accepts no response with fewer than 4 bytes. -/
theorem select_rejects_short_response :
    device_frame [0x41, 0x90, 0x00] =
        [0x00, 0x00, 0xFF, 0x04, 0xFC, 0xD5, 0x41, 0x90, 0x00, 0x5A, 0x00] ++
          List.replicate 53 0 ∧
      select_passport_application (fixedBus (device_frame [0x41, 0x90, 0x00])) 0x24
          (List.replicate 256 0) reader_zero () = some (- EIO, ()) := by
  constructor <;> rfl

/-- What holds of the outcome: `select_passport_application` returns 0 only if the command
was written and the response was read; when the response frame is received with
a valid preamble (and its `LEN - 2` bytes lie inside the frame) the result is
either 0 or `-EIO`; and it is `-EIO` whenever the frame carries fewer than 4
payload bytes (`LEN - 1 < 4`), whatever these bytes are. -/
theorem select_passport_application_outcome {σ : Type} (bus : I2cBus σ) (addr : Nat)
    (resp : List Nat) (reader : passport_reader_t) (s : σ) :
    (∀ s', select_passport_application bus addr resp reader s = some (0, s') →
        ∃ s1, pn532_write_command bus addr s
            ([PN532_CMD_INDATAEXCHANGE, reader.target_number] ++ SELECT_EPASSPORT_APP)
            (SELECT_EPASSPORT_APP.length + 2) = some (0, s1) ∧
          (bus.read (pn532_read_ack bus addr s1).2 FRAME_SIZE addr).1 = 0) ∧
      ∀ (s1 s2 : σ) (frame : List Nat),
        pn532_write_command bus addr s
            ([PN532_CMD_INDATAEXCHANGE, reader.target_number] ++ SELECT_EPASSPORT_APP)
            (SELECT_EPASSPORT_APP.length + 2) = some (0, s1) →
        bus.read (pn532_read_ack bus addr s1).2 FRAME_SIZE addr = (0, frame, s2) →
        frame.length = 64 →
        (frame.getD (ready_offset frame) 0 = 0x00 ∧
          frame.getD (ready_offset frame + 1) 0 = 0x00 ∧
          frame.getD (ready_offset frame + 2) 0 = 0xFF) →
        2 ≤ frame.getD (ready_offset frame + 3) 0 →
        ready_offset frame + 4 + frame.getD (ready_offset frame + 3) 0 ≤ 64 →
        (select_passport_application bus addr resp reader s = some (0, s2) ∨
            select_passport_application bus addr resp reader s = some (- EIO, s2)) ∧
          (frame.getD (ready_offset frame + 3) 0 - 1 < 4 →
            select_passport_application bus addr resp reader s = some (- EIO, s2)) :=
  ⟨fun s' h => select_success_needs_response bus addr resp reader s s' h,
    fun s1 s2 frame hw hrd _ hpre h2 hsrc =>
      select_outcome_of_frame bus addr resp reader s s1 s2 frame hw hrd hpre h2 hsrc⟩

theorem select_passport_application_outcome_witness :
    select_passport_application (fixedBus (device_frame [0x41, 0x01])) 0x24
        (List.replicate 256 0) reader_zero () = some (- EIO, ()) :=
  ((select_passport_application_outcome (fixedBus (device_frame [0x41, 0x01])) 0x24
      (List.replicate 256 0) reader_zero ()).2 () () (device_frame [0x41, 0x01]) rfl rfl
      (by decide) (by decide) (by decide) (by decide)).2 (by decide)

set_option maxRecDepth 8192 in
/-- C5 fails on the code: the well-formed reply to the select command,
`00 00 FF 05 FB D5 41 00 90 00 5A 00`, carries the payload `41 00 90 00` whose two
bytes before the DCS are `90 00`; the decoder delivers `41 00 90` with length 3 and
`select_passport_application` returns `-EIO`.  So does a six-byte payload ending
in `90 00`, while the payload `41 00 90 00 6A`, which does not end in `90 00`, is
accepted: the bytes compared with `90 00` are the two before the last payload
byte.  A payload `41 00 6A 82` is rejected. -/
theorem select_rejects_normal_reply :
    device_frame select_ok_payload =
        [0x00, 0x00, 0xFF, 0x05, 0xFB, 0xD5, 0x41, 0x00, 0x90, 0x00, 0x5A, 0x00] ++
          List.replicate 52 0 ∧
      pn532_read_response_parse 256 (device_frame select_ok_payload) (List.replicate 256 0) 0 =
        some ⟨0, [0x41, 0x00, 0x90] ++ List.replicate 253 0, 3⟩ ∧
      select_passport_application (fixedBus (device_frame select_ok_payload)) 0x24
          (List.replicate 256 0) reader_zero () = some (- EIO, ()) ∧
      select_passport_application (fixedBus (device_frame [0x41, 0x00, 0x6A, 0x82, 0x90, 0x00]))
          0x24 (List.replicate 256 0) reader_zero () = some (- EIO, ()) ∧
      select_passport_application (fixedBus (device_frame [0x41, 0x00, 0x90, 0x00, 0x6A]))
          0x24 (List.replicate 256 0) reader_zero () = some (0, ()) ∧
      select_passport_application (fixedBus (device_frame [0x41, 0x00, 0x6A, 0x82]))
          0x24 (List.replicate 256 0) reader_zero () = some (- EIO, ()) := by
  refine ⟨rfl, ?_, ?_, ?_, ?_, ?_⟩
  · rfl
  · rfl
  · rfl
  · rfl
  · rfl

/-! ## Card detection -/

/-- For every well-formed list-passive-target response with a uid `U` of 1 to 10
bytes, `pn532_detect_card` returns 0 with the target number and `uid_len` of the
frame, but the stored uid is `U` without its last byte followed by the byte the
local `resp[uid_len + 6]` held before the call. -/
theorem detect_card_uid_of_frame {σ : Type} (bus : I2cBus σ) (addr : Nat)
    (resp : List Nat) (reader : passport_reader_t) (s s1 s2 : σ)
    (cnt tg sens1 sens2 sel : Nat) (U : List Nat)
    (hw : pn532_write_command bus addr s
        [PN532_CMD_INLISTPASSIVETARGET, 0x01, PN532_MIFARE_ISO14443A] 3 = some (0, s1))
    (hrd : bus.read (pn532_read_ack bus addr s1).2 FRAME_SIZE addr =
      (0, device_frame ([0x4B, cnt, tg, sens1, sens2, sel, U.length] ++ U), s2))
    (hcnt : cnt ≠ 0) (h1 : 1 ≤ U.length) (hU : U.length ≤ 10) (hresp : resp.length = 32) :
    ∃ r, pn532_detect_card bus addr resp reader s = some (0, r, s2) ∧
      r.target_number = tg ∧ r.uid_len = U.length ∧ r.card_present = true ∧
      r.uid.take U.length = U.take (U.length - 1) ++ [resp.getD (U.length + 6) 0] ∧
      r.passport_data.uid.take U.length = r.uid.take U.length := by
  have hp := parse_device_frame 32 ([0x4B, cnt, tg, sens1, sens2, sel, U.length] ++ U) resp 0
    (by simp) (by simp; omega) (by simp; omega)
  have hr := read_response_of_read bus addr 32 s1 s2 _ resp 0 hrd
  rw [hp] at hr
  have hlen : ([0x4B, cnt, tg, sens1, sens2, sel, U.length] ++ U).length - 1 = U.length + 6 := by
    simp
  obtain ⟨m, hm⟩ : ∃ m, U.length = m + 1 := ⟨U.length - 1, by omega⟩
  have htake : List.take (U.length + 6) ([0x4B, cnt, tg, sens1, sens2, sel, U.length] ++ U) =
      [0x4B, cnt, tg, sens1, sens2, sel, U.length] ++ U.take (U.length - 1) := by
    rw [hm]; simp
  rw [hlen, htake] at hr
  have hdrop : resp.drop (U.length + 6) =
      resp.getD (U.length + 6) 0 :: resp.drop (U.length + 6 + 1) := by
    rw [List.drop_eq_getElem_cons (by omega), List.getD_eq_getElem _ _ (by omega)]
  unfold pn532_detect_card
  simp only [PN532_CMD_INLISTPASSIVETARGET] at hw
  simp only [hw, hr, Option.map_some', ne_eq, not_true_eq_false, if_false,
    PN532_CMD_INLISTPASSIVETARGET, List.cons_append, List.getD_cons_zero, List.getD_cons_succ,
    Nat.reduceAdd, hcnt, List.nil_append]
  rw [if_pos ⟨hU, by omega⟩]
  refine ⟨_, rfl, rfl, rfl, rfl, ?_, ?_⟩
  swap
  · simp only [memcpy_zero]
    rw [List.take_append_eq_append_take, List.take_take, Nat.min_self]
    simp
    left
    omega
  simp only [memcpy_zero, List.drop_succ_cons, List.drop_zero, hdrop]
  have hl : (List.take (U.length - 1) U).length = U.length - 1 := by
    simp
  rw [List.take_append_of_le_length (by simp; omega)]
  rw [List.take_append_eq_append_take, hl]
  have : U.length - (U.length - 1) = 1 := by omega
  rw [this]
  simp only [List.take_succ_cons, List.take_zero]
  rw [List.take_of_length_le (l := List.take (U.length - 1) U) (by simp),
    List.take_of_length_le (by simp; omega)]

/-- C6, evaluated on the code: the bus answers list-passive-target with the
well-formed frame for the payload `4B 01 01 00 04 20 04 DE AD BE EF`
(`LEN = 0x0C`).  `pn532_detect_card` returns 0 with target number 1 and
`uid_len = 4`, but the fourth uid byte is whatever the local `resp[10]` held
before the call (`00`, resp. `55`), not `EF`. -/
theorem detect_card_loses_last_uid_byte :
    device_frame target_payload =
        [0x00, 0x00, 0xFF, 0x0C, 0xF4, 0xD5, 0x4B, 0x01, 0x01, 0x00, 0x04, 0x20, 0x04,
          0xDE, 0xAD, 0xBE, 0xEF, 0x7E, 0x00] ++ List.replicate 45 0 ∧
      (pn532_detect_card cardBus 0x24 (List.replicate 32 0) reader_zero 0).map
          (fun r => (r.1, r.2.1.target_number, r.2.1.uid_len, r.2.1.uid.take 4,
            r.2.1.passport_data.uid.take 4, r.2.1.card_present)) =
        some (0, 0x01, 4, [0xDE, 0xAD, 0xBE, 0x00], [0xDE, 0xAD, 0xBE, 0x00], true) ∧
      (pn532_detect_card cardBus 0x24 (List.replicate 32 0x55) reader_zero 0).map
          (fun r => (r.1, r.2.1.target_number, r.2.1.uid_len, r.2.1.uid.take 4,
            r.2.1.passport_data.uid.take 4, r.2.1.card_present)) =
        some (0, 0x01, 4, [0xDE, 0xAD, 0xBE, 0x55], [0xDE, 0xAD, 0xBE, 0x55], true) := by
  refine ⟨by decide, ?_⟩
  constructor <;> rfl

/-! ## End-to-end run -/

/-- From `STATE_SELECTING_APP`, whatever well-formed response ending in `90 00`
the bus returns, the tick goes to `STATE_ERROR` and notifies Error. -/
theorem selecting_app_tick_error {σ : Type} (bus : I2cBus σ) (junk : List Nat) (w : World σ)
    (s1 s2 : σ) (pre : List Nat)
    (hst : w.reader.state = .STATE_SELECTING_APP)
    (hw : pn532_write_command bus w.pn532_i2c_address w.bus
        ([PN532_CMD_INDATAEXCHANGE, w.reader.target_number] ++ SELECT_EPASSPORT_APP)
        (SELECT_EPASSPORT_APP.length + 2) = some (0, s1))
    (hrd : bus.read (pn532_read_ack bus w.pn532_i2c_address s1).2 FRAME_SIZE
        w.pn532_i2c_address = (0, device_frame (pre ++ [0x90, 0x00]), s2))
    (hpre : pre.length + 2 ≤ 56) :
    passport_state_machine bus junk w =
      some { w with
        reader := { w.reader with state := .STATE_ERROR }
        bus := s2
        sent := w.sent ++ [.status .PASSPORT_STATUS_ERROR] } := by
  have hsel := select_rejects_status_word bus w.pn532_i2c_address junk w.reader w.bus s1 s2
    pre hw hrd hpre
  unfold passport_state_machine
  rw [hst]
  simp only [hsel]
  rfl

/-- C4, evaluated on the code: from `STATE_WAIT_COMMAND`, with a bus that answers
list-passive-target with the uid `DE AD BE EF` and data-exchange with the
well-formed frame for `41 00 90 00`, StartScan followed by six ticks visits
Detecting, CardDetected, SelectingApp, Error, WaitCommand, WaitCommand; the
notifier receives Scanning, Scanning, Reading, Error, Error and no record. -/
theorem scan_with_card_ends_in_error :
    device_frame select_ok_payload =
        [0x00, 0x00, 0xFF, 0x05, 0xFB, 0xD5, 0x41, 0x00, 0x90, 0x00, 0x5A, 0x00] ++
          List.replicate 52 0 ∧
      (run_ticks cardBus
          [[], List.replicate 32 0, [], List.replicate 256 0, [], []]
          (handle_ble_command PASSPORT_CMD_START_SCAN world_ready)).map
          (fun ws => ws.map (fun w => w.reader.state)) =
        some [.STATE_DETECTING, .STATE_CARD_DETECTED, .STATE_SELECTING_APP, .STATE_ERROR,
          .STATE_WAIT_COMMAND, .STATE_WAIT_COMMAND] ∧
      (run_ticks cardBus
          [[], List.replicate 32 0, [], List.replicate 256 0, [], []]
          (handle_ble_command PASSPORT_CMD_START_SCAN world_ready)).map
          (fun ws => ws.map (fun w => w.sent)) =
        some [[.status .PASSPORT_STATUS_SCANNING],
          [.status .PASSPORT_STATUS_SCANNING, .status .PASSPORT_STATUS_SCANNING],
          [.status .PASSPORT_STATUS_SCANNING, .status .PASSPORT_STATUS_SCANNING,
            .status .PASSPORT_STATUS_READING],
          [.status .PASSPORT_STATUS_SCANNING, .status .PASSPORT_STATUS_SCANNING,
            .status .PASSPORT_STATUS_READING, .status .PASSPORT_STATUS_ERROR],
          [.status .PASSPORT_STATUS_SCANNING, .status .PASSPORT_STATUS_SCANNING,
            .status .PASSPORT_STATUS_READING, .status .PASSPORT_STATUS_ERROR,
            .status .PASSPORT_STATUS_ERROR],
          [.status .PASSPORT_STATUS_SCANNING, .status .PASSPORT_STATUS_SCANNING,
            .status .PASSPORT_STATUS_READING, .status .PASSPORT_STATUS_ERROR,
            .status .PASSPORT_STATUS_ERROR]] := by
  refine ⟨by decide, ?_⟩
  constructor <;> rfl

/-! ## Discovery -/

/-- The checksum loop reads only the first `n` bytes of `cmd`. -/
theorem dcs_loop_take (cmd : List Nat) (n : Nat) (hn : n ≤ cmd.length) :
    dcs_loop cmd n 0 PN532_HOSTTOPN532 = dcs_loop (cmd.take n) n 0 PN532_HOSTTOPN532 := by
  rw [dcs_loop_eq cmd n 0 _ (by omega) (by decide),
    dcs_loop_eq (cmd.take n) n 0 _ (by simp; omega) (by decide)]
  simp only [List.drop_zero, List.take_take, Nat.min_self]

/-- The frame built depends only on the first `cmd_len` bytes of `cmd`. -/
theorem write_frame_take (frame cmd : List Nat) (n : Nat) (hn : n ≤ cmd.length) :
    pn532_write_command_frame frame cmd n =
      pn532_write_command_frame frame (cmd.take n) (cmd.take n).length := by
  have hl : (cmd.take n).length = n := by simp; omega
  rw [hl]
  unfold pn532_write_command_frame
  simp only [hl, hn, le_refl, and_true, dcs_loop_take cmd n hn, memcpy, List.take_take,
    Nat.min_self]

/-- Within the capacity of the array, the frame handed to the bus is what the
stores leave in `frame[0..idx)`. -/
theorem write_frame_eq_stores (frame cmd : List Nat) (n : Nat) (h8 : n + 8 ≤ 64)
    (hn : n ≤ cmd.length) :
    pn532_write_command_frame frame cmd n =
      some ((pn532_write_command_stores frame cmd n).1.take
        (pn532_write_command_stores frame cmd n).2) := by
  have i1 : u8 ((0 : Int) + 1) = 1 := by decide
  have j1 : u8 (1 : Int) = 1 := by decide
  have j2 : u8 (2 : Int) = 2 := by decide
  have j3 : u8 (3 : Int) = 3 := by decide
  have j4 : u8 (4 : Int) = 4 := by decide
  have j5 : u8 (5 : Int) = 5 := by decide
  have j6 : u8 (6 : Int) = 6 := by decide
  have i2 : u8 ((1 : Int) + 1) = 2 := by decide
  have i3 : u8 ((2 : Int) + 1) = 3 := by decide
  have i4 : u8 ((3 : Int) + 1) = 4 := by decide
  have i5 : u8 ((4 : Int) + 1) = 5 := by decide
  have i6 : u8 ((5 : Int) + 1) = 6 := by decide
  have e6 : u8 ((6 : Int) + (n : Int)) = 6 + n := by unfold u8; omega
  have e7 : u8 ((6 : Int) + (n : Int) + 1) = 6 + n + 1 := by unfold u8; omega
  have e8 : u8 ((6 : Int) + (n : Int) + 1 + 1) = 6 + n + 1 + 1 := by unfold u8; omega
  unfold pn532_write_command_frame pn532_write_command_stores
  rw [if_pos ⟨by unfold FRAME_SIZE; omega, hn⟩]
  simp only [Nat.cast_zero, Nat.cast_one, Nat.cast_ofNat, Nat.cast_add, i1, j1, j2, j3, j4, j5, j6, i2, i3, i4, i5, i6,
    e6, e7, e8, Nat.zero_add, Nat.reduceAdd, Int.reduceAdd, zero_add]

set_option maxRecDepth 8192 in
/-- C11 fails on the code: for a command of 57 bytes (`cmd_len + 8 = 65`) there
is no frame-too-large error.  On memory that holds the 64-byte `frame` followed
by eight bytes `EE`, the stores put the checksum at `frame[63]` and the postamble
at index 64, the first byte after the array, and leave `idx = 65` as the length
for `i2c_write`; the function has no defined result. -/
theorem write_command_overruns_frame :
    pn532_write_command_stores (List.replicate 64 0 ++ List.replicate 8 0xEE)
        (List.replicate 57 0x01) 57 =
      ([0x00, 0x00, 0xFF, 0x3A, 0xC6, 0xD4] ++ List.replicate 57 0x01 ++ [0xF3, 0x00] ++
        List.replicate 7 0xEE, 65) ∧
      pn532_write_command (fixedBus []) 0x24 () (List.replicate 57 0x01) 57 = none := by
  constructor <;> rfl

/-- C11 as amended: `pn532_write_command` has no size check and no
frame-too-large error.  For `cmd_len + 8 ≤ 64` it builds the `cmd_len + 8` bytes
its stores leave in the array, hands them to `i2c_write` once and returns the
transport's result, so the only possible failure is the transport's write error;
for `cmd_len + 8 > 64` the stores run past the array and no result is defined. -/
theorem write_command_no_size_check {σ : Type} (bus : I2cBus σ) (addr : Nat) (s : σ)
    (cmd : List Nat) (cmd_len : Nat) :
    (cmd_len + 8 ≤ 64 → cmd_len ≤ cmd.length →
        ∃ tx, pn532_write_command_frame (List.replicate FRAME_SIZE 0) cmd cmd_len = some tx ∧
          tx.length = cmd_len + 8 ∧
          tx = (pn532_write_command_stores (List.replicate FRAME_SIZE 0) cmd cmd_len).1.take
            (pn532_write_command_stores (List.replicate FRAME_SIZE 0) cmd cmd_len).2 ∧
          pn532_write_command bus addr s cmd cmd_len = some (bus.write s tx addr)) ∧
      (64 < cmd_len + 8 → pn532_write_command bus addr s cmd cmd_len = none) := by
  constructor
  · intro h8 hn
    have hl : (cmd.take cmd_len).length = cmd_len := by simp; omega
    have h1 := write_frame_take (List.replicate FRAME_SIZE 0) cmd cmd_len hn
    rw [write_frame_eq _ (cmd.take cmd_len) (by simp [FRAME_SIZE]) (by omega)] at h1
    have h2 := write_frame_eq_stores (List.replicate FRAME_SIZE 0) cmd cmd_len h8 hn
    refine ⟨_, h1, ?_, ?_, ?_⟩
    · simp only [List.length_append, List.length_cons, List.length_nil, hl]
      omega
    · rw [h1] at h2
      exact Option.some.inj h2
    · unfold pn532_write_command
      rw [h1]
  · intro h
    unfold pn532_write_command pn532_write_command_frame
    rw [if_neg (by unfold FRAME_SIZE; omega)]

theorem write_command_no_size_check_witness :
    (∃ tx, pn532_write_command_frame (List.replicate FRAME_SIZE 0) [0x4A, 0x01, 0x00] 3 =
          some tx ∧
        tx.length = 3 + 8 ∧
        tx = (pn532_write_command_stores (List.replicate FRAME_SIZE 0)
            [0x4A, 0x01, 0x00] 3).1.take
          (pn532_write_command_stores (List.replicate FRAME_SIZE 0) [0x4A, 0x01, 0x00] 3).2 ∧
        pn532_write_command (fixedBus []) 0x24 () [0x4A, 0x01, 0x00] 3 =
          some ((fixedBus []).write () tx 0x24)) ∧
      pn532_write_command (fixedBus []) 0x24 () (List.replicate 57 0x01) 57 = none :=
  ⟨(write_command_no_size_check (fixedBus []) 0x24 () [0x4A, 0x01, 0x00] 3).1
      (by decide) (by decide),
    (write_command_no_size_check (fixedBus []) 0x24 () (List.replicate 57 0x01) 57).2
      (by decide)⟩

/-! ## UID length -/

/-- C12, evaluated on the code: the bus answers list-passive-target with the
well-formed frame for `4B 01 01 00 04 20 0B` followed by eleven bytes `11`.  The
frame is decoded with return value 0, response code `4B`, one target and
`resp[6] = 11`; `pn532_detect_card` then sets `uid_len = 11` and copies 11 bytes
into the 10-byte `reader.uid`, which is an access outside the array, and so is
the Detecting tick of a scan started from `STATE_WAIT_COMMAND`. -/
theorem detect_card_overruns_uid :
    (pn532_read_response (fixedBus (device_frame long_uid_payload)) 0x24 32 ()
        (List.replicate 32 0) 0).map
        (fun r => (r.1.ret, r.1.resp.getD 0 0, r.1.resp.getD 1 0, r.1.resp.getD 6 0)) =
      some (0, 0x4B, 0x01, 11) ∧
      pn532_detect_card (fixedBus (device_frame long_uid_payload)) 0x24
        (List.replicate 32 0) reader_zero () = none ∧
      (run_events (fixedBus (device_frame long_uid_payload))
        [.command PASSPORT_CMD_START_SCAN, .tick [], .tick (List.replicate 32 0)]
        { world_detecting with
          reader := { reader_zero with state := .STATE_WAIT_COMMAND } }).isNone = true := by
  refine ⟨rfl, rfl, rfl⟩

/-! ## State machine: single ticks -/

/-- The tick in `STATE_ERROR`. -/
theorem error_tick {σ : Type} (bus : I2cBus σ) (junk : List Nat) (w : World σ)
    (hst : w.reader.state = .STATE_ERROR) :
    passport_state_machine bus junk w =
      some { w with
        reader := { reader_zero with state := .STATE_WAIT_COMMAND }
        sent := w.sent ++ [.status .PASSPORT_STATUS_ERROR] } := by
  unfold passport_state_machine
  rw [hst]

/-- The tick in `STATE_SUCCESS`. -/
theorem success_tick {σ : Type} (bus : I2cBus σ) (junk : List Nat) (w : World σ)
    (hst : w.reader.state = .STATE_SUCCESS) :
    passport_state_machine bus junk w =
      some { w with
        reader := { w.reader with card_present := false, state := .STATE_WAIT_COMMAND }
        sent := w.sent ++
          [.status .PASSPORT_STATUS_SUCCESS, .data w.reader.passport_data] } := by
  unfold passport_state_machine
  rw [hst]

/-- The tick in `STATE_WAIT_COMMAND`. -/
theorem wait_tick {σ : Type} (bus : I2cBus σ) (junk : List Nat) (w : World σ)
    (hst : w.reader.state = .STATE_WAIT_COMMAND) :
    passport_state_machine bus junk w =
      if w.reader.scan_requested then
        some { w with reader := { w.reader with state := .STATE_DETECTING } }
      else some w := by
  unfold passport_state_machine
  rw [hst]

/-! ## No-card loop -/

/-- A failing `pn532_detect_card` returns the reader it was given. -/
theorem detect_card_failure_keeps_reader {σ : Type} (bus : I2cBus σ) (addr : Nat)
    (junk : List Nat) (reader r : passport_reader_t) (s s1 : σ) (ret : Int)
    (h : pn532_detect_card bus addr junk reader s = some (ret, r, s1)) (hret : ret ≠ 0) :
    r = reader := by
  unfold pn532_detect_card at h
  split at h
  · exact absurd h (by simp)
  · split at h
    · simp only [Option.some.injEq, Prod.mk.injEq] at h; exact h.2.1.symm
    · split at h
      · exact absurd h (by simp)
      · split at h
        · simp only [Option.some.injEq, Prod.mk.injEq] at h; exact h.2.1.symm
        · split at h
          · simp only [Option.some.injEq, Prod.mk.injEq] at h; exact h.2.1.symm
          · dsimp only at h
            split at h
            · simp only [Option.some.injEq, Prod.mk.injEq] at h; exact h.2.1.symm
            · split at h
              · simp only [Option.some.injEq, Prod.mk.injEq] at h
                exact absurd h.1.symm hret
              · exact absurd h (by simp)

/-- One tick in `STATE_DETECTING` with a scan requested and a failing detection:
the reader is unchanged and Scanning is notified. -/
theorem detecting_tick_no_card {σ : Type} (bus : I2cBus σ) (w : World σ) (junk : List Nat)
    (hst : w.reader.state = .STATE_DETECTING) (hscan : w.reader.scan_requested = true)
    (hfail : detect_fails bus w.pn532_i2c_address) :
    ∃ w1, passport_state_machine bus junk w = some w1 ∧ w1.reader = w.reader ∧
      w1.pn532_i2c_address = w.pn532_i2c_address ∧
      w1.sent = w.sent ++ [.status .PASSPORT_STATUS_SCANNING] := by
  obtain ⟨ret, r, s1, hd, hret⟩ := hfail junk w.reader w.bus
  have hr := detect_card_failure_keeps_reader bus _ junk w.reader r w.bus s1 ret hd hret
  subst hr
  unfold passport_state_machine
  rw [hst]
  simp only [hscan, not_true_eq_false, if_false, hd, if_neg hret]
  exact ⟨_, rfl, rfl, rfl, rfl⟩

/-- From `STATE_DETECTING` with a scan requested, on a bus where every call of
`pn532_detect_card` fails, each tick notifies Scanning and leaves the state
Detecting; after any number of ticks every state visited is Detecting (never
Error), and at each of them StopScan puts the machine in `STATE_WAIT_COMMAND`,
where the following tick leaves it. -/
theorem no_card_loop {σ : Type} (bus : I2cBus σ) (w : World σ)
    (hst : w.reader.state = .STATE_DETECTING) (hscan : w.reader.scan_requested = true)
    (hfail : detect_fails bus w.pn532_i2c_address) :
    (∀ junk, ∃ w1, passport_state_machine bus junk w = some w1 ∧
        w1.reader.state = .STATE_DETECTING ∧
        w1.sent = w.sent ++ [.status .PASSPORT_STATUS_SCANNING]) ∧
      ∀ junks : List (List Nat), ∃ ws, run_ticks bus junks w = some ws ∧
        ws.length = junks.length ∧
        ∀ w1 ∈ ws, w1.reader.state = .STATE_DETECTING ∧
          (handle_ble_command PASSPORT_CMD_STOP_SCAN w1).reader.state = .STATE_WAIT_COMMAND ∧
          ∀ junk, ∃ w2, passport_state_machine bus junk
              (handle_ble_command PASSPORT_CMD_STOP_SCAN w1) = some w2 ∧
            w2.reader.state = .STATE_WAIT_COMMAND := by
  constructor
  · intro junk
    obtain ⟨w1, h1, hr, _, hs⟩ := detecting_tick_no_card bus w junk hst hscan hfail
    exact ⟨w1, h1, by rw [hr, hst], hs⟩
  · intro junks
    induction junks generalizing w with
    | nil => exact ⟨[], rfl, rfl, by simp⟩
    | cons j js ih =>
      obtain ⟨w1, h1, hr, ha, _⟩ := detecting_tick_no_card bus w j hst hscan hfail
      obtain ⟨ws, hws, hlen, hall⟩ := ih w1 (by rw [hr, hst]) (by rw [hr, hscan]) (by rw [ha]; exact hfail)
      refine ⟨w1 :: ws, by simp only [run_ticks, h1, hws], by simp [hlen], ?_⟩
      intro w2 hw2
      rcases List.mem_cons.mp hw2 with rfl | hmem
      · refine ⟨by rw [hr, hst], rfl, ?_⟩
        intro junk
        exact ⟨_, rfl, rfl⟩
      · exact hall w2 hmem

/-- A bus that answers every read with the frame for `4B 00 00` reports zero
targets: every detection returns `-ENODEV`. -/
theorem zero_targets_detect_fails :
    detect_fails (fixedBus (device_frame [0x4B, 0x00, 0x00])) 0x24 := by
  intro junk reader s
  have hp := parse_device_frame 32 [0x4B, 0x00, 0x00] junk 0 (by decide) (by decide)
    (by decide)
  have hr := read_response_of_read (fixedBus (device_frame [0x4B, 0x00, 0x00])) 0x24 32 ()
    () (device_frame [0x4B, 0x00, 0x00]) junk 0 rfl
  rw [hp] at hr
  refine ⟨-ENODEV, reader, (), ?_, by decide⟩
  have hw : pn532_write_command (fixedBus (device_frame [0x4B, 0x00, 0x00])) 0x24 s
      [PN532_CMD_INLISTPASSIVETARGET, 0x01, PN532_MIFARE_ISO14443A] 3 = some (0, ()) := rfl
  simp only [PN532_CMD_INLISTPASSIVETARGET] at hw
  unfold pn532_detect_card
  simp only [hw, hr, Option.map_some', ne_eq, not_true_eq_false, if_false, List.length_cons,
    List.length_nil, Nat.reduceAdd, Nat.reduceSub, List.take_succ_cons, List.take_zero,
    List.cons_append, List.nil_append, List.getD_cons_zero, List.getD_cons_succ,
    PN532_CMD_INLISTPASSIVETARGET, if_true]

theorem no_card_loop_witness :
    ∃ ws, run_ticks (fixedBus (device_frame [0x4B, 0x00, 0x00])) [[], [], []]
        world_detecting = some ws ∧ ws.length = 3 ∧
      ∀ w1 ∈ ws, w1.reader.state = .STATE_DETECTING := by
  obtain ⟨ws, h, hl, hall⟩ := (no_card_loop (fixedBus (device_frame [0x4B, 0x00, 0x00]))
    world_detecting rfl rfl zero_targets_detect_fails).2 [[], [], []]
  exact ⟨ws, h, hl, fun w1 hw1 => (hall w1 hw1).1⟩

set_option maxRecDepth 8192 in
/-- C13 fails on the code: the bus answers every detection with the well-formed
reply that reports zero targets, `00 00 FF 03 FD D5 4B 00 E0 00`.  The decoder
delivers one byte of it, so the count tested is the byte the stack held at
`resp[1]`: not every detection on this bus fails.  With a zero stack the machine
stays in `STATE_DETECTING`; when a tick finds the bytes of an earlier detection
there, the machine leaves Detecting for `STATE_CARD_DETECTED`, then
`STATE_SELECTING_APP`, and enters `STATE_ERROR`, notifying Error, without any
StopScan. -/
theorem no_target_reply_leaves_detecting :
    ¬ detect_fails (fixedBus (device_frame [0x4B, 0x00])) 0x24 ∧
      (run_ticks (fixedBus (device_frame [0x4B, 0x00]))
          [List.replicate 32 0, List.replicate 32 0, List.replicate 32 0]
          world_detecting).map (fun ws => ws.map (fun w => w.reader.state)) =
        some [.STATE_DETECTING, .STATE_DETECTING, .STATE_DETECTING] ∧
      (run_ticks (fixedBus (device_frame [0x4B, 0x00]))
          [List.replicate 32 0, stale_resp, [], List.replicate 256 0, []]
          world_detecting).map
          (fun ws => ws.map (fun w => (w.reader.state, w.reader.card_present))) =
        some [(.STATE_DETECTING, false), (.STATE_CARD_DETECTED, true),
          (.STATE_SELECTING_APP, true), (.STATE_ERROR, true),
          (.STATE_WAIT_COMMAND, false)] ∧
      (run_ticks (fixedBus (device_frame [0x4B, 0x00]))
          [List.replicate 32 0, stale_resp, [], List.replicate 256 0, []]
          world_detecting).map (fun ws => ws.map (fun w => w.sent)) =
        some [[.status .PASSPORT_STATUS_SCANNING],
          [.status .PASSPORT_STATUS_SCANNING, .status .PASSPORT_STATUS_SCANNING],
          [.status .PASSPORT_STATUS_SCANNING, .status .PASSPORT_STATUS_SCANNING,
            .status .PASSPORT_STATUS_READING],
          [.status .PASSPORT_STATUS_SCANNING, .status .PASSPORT_STATUS_SCANNING,
            .status .PASSPORT_STATUS_READING, .status .PASSPORT_STATUS_ERROR],
          [.status .PASSPORT_STATUS_SCANNING, .status .PASSPORT_STATUS_SCANNING,
            .status .PASSPORT_STATUS_READING, .status .PASSPORT_STATUS_ERROR,
            .status .PASSPORT_STATUS_ERROR]] := by
  refine ⟨?_, rfl, rfl, rfl⟩
  intro h
  obtain ⟨ret, r, s1, hd, hret⟩ := h stale_resp reader_zero ()
  have he : pn532_detect_card (fixedBus (device_frame [0x4B, 0x00])) 0x24 stale_resp
      reader_zero () = some (0,
        { reader_zero with
          target_number := 1
          uid_len := 4
          uid := [0xDE, 0xAD, 0xBE, 0x00, 0, 0, 0, 0, 0, 0]
          passport_data :=
            { passport_data_zero with
              uid := [0xDE, 0xAD, 0xBE, 0x00, 0, 0, 0, 0, 0, 0]
              uid_len := 4 }
          card_present := true }, ()) := rfl
  rw [he] at hd
  simp only [Option.some.injEq, Prod.mk.injEq] at hd
  exact hret hd.1.symm

/-! ## Operator commands -/

/-- C14: handling Reset in any phase yields a reader whose target number, uid,
uid length, record, `card_present` and `scan_requested` are zero and whose state
is `STATE_WAIT_COMMAND`, notifies exactly Idle, and the following tick leaves the
whole world as it is, in `STATE_WAIT_COMMAND`. -/
theorem reset_clears_reader {σ : Type} (bus : I2cBus σ) (junk : List Nat) (w : World σ) :
    (handle_ble_command PASSPORT_CMD_RESET w).reader =
        { reader_zero with state := .STATE_WAIT_COMMAND } ∧
      (handle_ble_command PASSPORT_CMD_RESET w).reader.target_number = 0 ∧
      (handle_ble_command PASSPORT_CMD_RESET w).reader.uid = List.replicate 10 0 ∧
      (handle_ble_command PASSPORT_CMD_RESET w).reader.uid_len = 0 ∧
      (handle_ble_command PASSPORT_CMD_RESET w).reader.passport_data = passport_data_zero ∧
      (handle_ble_command PASSPORT_CMD_RESET w).reader.card_present = false ∧
      (handle_ble_command PASSPORT_CMD_RESET w).reader.scan_requested = false ∧
      (handle_ble_command PASSPORT_CMD_RESET w).reader.state = .STATE_WAIT_COMMAND ∧
      (handle_ble_command PASSPORT_CMD_RESET w).sent =
        w.sent ++ [.status .PASSPORT_STATUS_IDLE] ∧
      passport_state_machine bus junk (handle_ble_command PASSPORT_CMD_RESET w) =
        some (handle_ble_command PASSPORT_CMD_RESET w) := by
  refine ⟨rfl, rfl, rfl, rfl, rfl, rfl, rfl, rfl, rfl, rfl⟩

/-- C15: in `STATE_WAIT_COMMAND` with no scan requested, StopScan leaves the
reader unchanged and notifies exactly Idle; and in every state, StopScan handled
twice yields the reader that StopScan handled once yields. -/
theorem stop_scan_idempotent {σ : Type} (w : World σ) :
    (w.reader.state = .STATE_WAIT_COMMAND → w.reader.scan_requested = false →
        (handle_ble_command PASSPORT_CMD_STOP_SCAN w).reader = w.reader ∧
        (handle_ble_command PASSPORT_CMD_STOP_SCAN w).sent =
          w.sent ++ [.status .PASSPORT_STATUS_IDLE]) ∧
      (handle_ble_command PASSPORT_CMD_STOP_SCAN
          (handle_ble_command PASSPORT_CMD_STOP_SCAN w)).reader =
        (handle_ble_command PASSPORT_CMD_STOP_SCAN w).reader := by
  refine ⟨?_, rfl⟩
  intro hst hscan
  refine ⟨?_, rfl⟩
  show { w.reader with scan_requested := false, state := .STATE_WAIT_COMMAND } = w.reader
  rw [← hst, ← hscan]

theorem stop_scan_idempotent_witness :
    (handle_ble_command PASSPORT_CMD_STOP_SCAN world_ready).reader = world_ready.reader ∧
      (handle_ble_command PASSPORT_CMD_STOP_SCAN world_ready).sent =
        world_ready.sent ++ [.status .PASSPORT_STATUS_IDLE] :=
  (stop_scan_idempotent world_ready).1 rfl rfl

/-- C16 fails on the code: on a bus whose answers the driver accepts, StartScan
and six ticks lead through Detecting, CardDetected, SelectingApp, ReadingData and
Success back to WaitCommand; the Success tick sends Success and the record and
clears `card_present`.  GetData handled then leaves the notifier log at its five
entries: nothing is emitted. -/
theorem get_data_after_success_emits_nothing :
    (run_events cardBus5
        [.command PASSPORT_CMD_START_SCAN, .tick [], .tick (List.replicate 32 0), .tick [],
          .tick (List.replicate 256 0), .tick [], .tick [],
          .command PASSPORT_CMD_GET_DATA] world_ready).map
        (fun ws => ws.map (fun w => (w.reader.state, w.reader.card_present, w.sent.length))) =
      some [(.STATE_WAIT_COMMAND, false, 1), (.STATE_DETECTING, false, 1),
        (.STATE_CARD_DETECTED, true, 2), (.STATE_SELECTING_APP, true, 3),
        (.STATE_READING_DG1, true, 3), (.STATE_SUCCESS, true, 3),
        (.STATE_WAIT_COMMAND, false, 5), (.STATE_WAIT_COMMAND, false, 5)] := by
  rfl

/-- C16 as amended: GetData emits the record only while `card_present` is set.
The Success tick sends Success and the captured record, keeps the record in the
reader, clears `card_present` and returns to `STATE_WAIT_COMMAND`; GetData handled
there emits nothing and leaves the whole world unchanged.  In general GetData
with `card_present` clear changes nothing, and with `card_present` set it emits
the reader's record and leaves the reader unchanged. -/
theorem get_data_gated_by_card_present {σ : Type} (bus : I2cBus σ) (junk : List Nat)
    (w : World σ) (hst : w.reader.state = .STATE_SUCCESS) :
    (∃ w1, passport_state_machine bus junk w = some w1 ∧
        w1.reader.state = .STATE_WAIT_COMMAND ∧
        w1.sent = w.sent ++
          [.status .PASSPORT_STATUS_SUCCESS, .data w.reader.passport_data] ∧
        w1.reader.passport_data = w.reader.passport_data ∧
        w1.reader.card_present = false ∧
        handle_ble_command PASSPORT_CMD_GET_DATA w1 = w1) ∧
      ∀ v : World σ,
        (v.reader.card_present = false → handle_ble_command PASSPORT_CMD_GET_DATA v = v) ∧
        (v.reader.card_present = true →
          (handle_ble_command PASSPORT_CMD_GET_DATA v).sent =
            v.sent ++ [.data v.reader.passport_data] ∧
          (handle_ble_command PASSPORT_CMD_GET_DATA v).reader = v.reader) := by
  refine ⟨⟨_, success_tick bus junk w hst, rfl, rfl, rfl, rfl, rfl⟩, ?_⟩
  intro v
  constructor
  · intro hc
    simp [handle_ble_command, PASSPORT_CMD_GET_DATA, PASSPORT_CMD_START_SCAN,
      PASSPORT_CMD_STOP_SCAN, hc]
  · intro hc
    simp [handle_ble_command, PASSPORT_CMD_GET_DATA, PASSPORT_CMD_START_SCAN,
      PASSPORT_CMD_STOP_SCAN, hc]

theorem get_data_gated_by_card_present_witness :
    ∃ w1, passport_state_machine cardBus5 []
        { world_ready with
          reader := { world_ready.reader with state := .STATE_SUCCESS, card_present := true } } =
        some w1 ∧
      w1.reader.state = .STATE_WAIT_COMMAND ∧
      handle_ble_command PASSPORT_CMD_GET_DATA w1 = w1 := by
  obtain ⟨w1, h, hst, _, _, _, hg⟩ := (get_data_gated_by_card_present cardBus5 []
    { world_ready with
      reader := { world_ready.reader with state := .STATE_SUCCESS, card_present := true } }
    rfl).1
  exact ⟨w1, h, hst, hg⟩

/-! ## Initialisation is not repeated -/

/-- The function `pn532_detect_card` never changes `reader.state`. -/
theorem detect_card_keeps_state {σ : Type} (bus : I2cBus σ) (addr : Nat)
    (junk : List Nat) (reader r : passport_reader_t) (s s1 : σ) (ret : Int)
    (h : pn532_detect_card bus addr junk reader s = some (ret, r, s1)) :
    r.state = reader.state := by
  unfold pn532_detect_card at h
  split at h
  · exact absurd h (by simp)
  · split at h
    · simp only [Option.some.injEq, Prod.mk.injEq] at h; rw [← h.2.1]
    · split at h
      · exact absurd h (by simp)
      · split at h
        · simp only [Option.some.injEq, Prod.mk.injEq] at h; rw [← h.2.1]
        · split at h
          · simp only [Option.some.injEq, Prod.mk.injEq] at h; rw [← h.2.1]
          · dsimp only at h
            split at h
            · simp only [Option.some.injEq, Prod.mk.injEq] at h; rw [← h.2.1]
            · split at h
              · simp only [Option.some.injEq, Prod.mk.injEq] at h
                rw [← h.2.1]
              · exact absurd h (by simp)

/-- A tick never leads back to `STATE_IDLE` or `STATE_INIT_PN532`. -/
theorem tick_past_init {σ : Type} (bus : I2cBus σ) (junk : List Nat) (w w1 : World σ)
    (hp : past_init w.reader.state) (h : passport_state_machine bus junk w = some w1) :
    past_init w1.reader.state := by
  unfold passport_state_machine at h
  split at h
  · next hst => exact absurd hst hp.1
  · next hst => exact absurd hst hp.2
  · split at h <;> (simp only [Option.some.injEq] at h; subst h)
    · exact ⟨by simp, by simp⟩
    · exact hp
  · split at h
    · simp only [Option.some.injEq] at h; subst h; exact ⟨by simp, by simp⟩
    · split at h
      · exact absurd h (by simp)
      · next ret r s hd =>
        have hs := detect_card_keeps_state bus _ junk w.reader r w.bus s ret hd
        split at h <;> (simp only [Option.some.injEq] at h; subst h)
        · exact ⟨by simp, by simp⟩
        · show past_init r.state
          rw [hs]; exact hp
  · simp only [Option.some.injEq] at h; subst h; exact ⟨by simp, by simp⟩
  · split at h
    · exact absurd h (by simp)
    · split at h <;> (simp only [Option.some.injEq] at h; subst h) <;>
        exact ⟨by simp, by simp⟩
  · dsimp only at h
    split at h <;> (simp only [Option.some.injEq] at h; subst h) <;>
      exact ⟨by simp, by simp⟩
  · simp only [Option.some.injEq] at h; subst h; exact ⟨by simp, by simp⟩
  · simp only [Option.some.injEq] at h; subst h; exact ⟨by simp, by simp⟩

/-- No operator command leads back to `STATE_IDLE` or `STATE_INIT_PN532`. -/
theorem command_past_init {σ : Type} (cmd : Nat) (w : World σ)
    (hp : past_init w.reader.state) :
    past_init (handle_ble_command cmd w).reader.state := by
  unfold handle_ble_command
  split
  · exact hp
  · split
    · exact ⟨by simp, by simp⟩
    · split
      · split <;> exact hp
      · split
        · exact ⟨by simp, by simp⟩
        · exact hp

/-- Once past initialisation the machine stays past it, whatever ticks and
commands follow. -/
theorem run_events_past_init {σ : Type} (bus : I2cBus σ) (events : List Event) :
    ∀ (w : World σ) (ws : List (World σ)), past_init w.reader.state →
      run_events bus events w = some ws → ∀ w1 ∈ ws, past_init w1.reader.state := by
  induction events with
  | nil =>
    intro w ws _ h w1 hw1
    simp only [run_events, Option.some.injEq] at h
    subst h
    simp at hw1
  | cons e es ih =>
    intro w ws hp h w1 hw1
    unfold run_events at h
    split at h
    · exact absurd h (by simp)
    · next wa hstep =>
      have hpa : past_init wa.reader.state := by
        cases e with
        | tick junk => exact tick_past_init bus junk w wa hp hstep
        | command cmd =>
          simp only [step, Option.some.injEq] at hstep
          subst hstep
          exact command_past_init cmd w hp
      split at h
      · exact absurd h (by simp)
      · next ws1 hrest =>
        simp only [Option.some.injEq] at h
        subst h
        rcases List.mem_cons.mp hw1 with rfl | hmem
        · exact hpa
        · exact ih wa ws1 hpa hrest w1 hmem

/-- C17 fails on the code: on a bus without a device the machine started in
`STATE_IDLE` goes through Init, Error and then stays in WaitCommand for three
ticks; StartScan and one more tick bring it to Detecting.  Init is not entered
again. -/
theorem init_not_retried_on_dead_bus :
    (run_events deadBus
        [.tick [], .tick (List.replicate 32 0), .tick [], .tick [], .tick [], .tick [],
          .command PASSPORT_CMD_START_SCAN, .tick []] (world_boot ())).map
        (fun ws => ws.map (fun w => w.reader.state)) =
      some [.STATE_INIT_PN532, .STATE_ERROR, .STATE_WAIT_COMMAND, .STATE_WAIT_COMMAND,
        .STATE_WAIT_COMMAND, .STATE_WAIT_COMMAND, .STATE_WAIT_COMMAND, .STATE_DETECTING] := by
  rfl

/-- C17 as amended: when the Init tick fails the machine enters `STATE_ERROR`;
the Error tick clears the reader and puts it in `STATE_WAIT_COMMAND`, and
initialisation is not run again: whatever ticks and operator commands follow, the
state is never `STATE_IDLE` nor `STATE_INIT_PN532`, and a StartScan followed by a
tick leads to `STATE_DETECTING`. -/
theorem init_failure_not_retried {σ : Type} (bus : I2cBus σ) (junk junk1 : List Nat)
    (w : World σ) (ret : Int) (a : Nat) (s : σ)
    (hst : w.reader.state = .STATE_INIT_PN532)
    (hinit : pn532_init bus w.pn532_i2c_address w.bus junk = some (ret, a, s))
    (hret : ret ≠ 0) :
    ∃ w1 w2, passport_state_machine bus junk w = some w1 ∧
      w1.reader.state = .STATE_ERROR ∧
      passport_state_machine bus junk1 w1 = some w2 ∧
      w2.reader = { reader_zero with state := .STATE_WAIT_COMMAND } ∧
      (∀ events ws, run_events bus events w2 = some ws →
        ∀ w3 ∈ ws, w3.reader.state ≠ .STATE_IDLE ∧ w3.reader.state ≠ .STATE_INIT_PN532) ∧
      ∀ junk2, ∃ w4, passport_state_machine bus junk2
          (handle_ble_command PASSPORT_CMD_START_SCAN w2) = some w4 ∧
        w4.reader.state = .STATE_DETECTING := by
  have h1 : passport_state_machine bus junk w =
      some { reader := { w.reader with state := .STATE_ERROR }
             pn532_i2c_address := a
             bus := s
             sent := w.sent ++ [.status .PASSPORT_STATUS_ERROR] } := by
    unfold passport_state_machine
    rw [hst]
    simp only [hinit, if_neg hret]
  refine ⟨_, _, h1, rfl, error_tick bus junk1 _ rfl, rfl, ?_, ?_⟩
  · intro events ws hrun w3 hw3
    exact run_events_past_init bus events _ ws ⟨by simp, by simp⟩ hrun w3 hw3
  · intro junk2
    exact ⟨_, rfl, rfl⟩

theorem init_failure_not_retried_witness :
    ∃ w1 w2, passport_state_machine deadBus (List.replicate 32 0)
        { world_boot () with reader := { reader_zero with state := .STATE_INIT_PN532 } } =
        some w1 ∧
      w1.reader.state = .STATE_ERROR ∧
      passport_state_machine deadBus [] w1 = some w2 ∧
      w2.reader = { reader_zero with state := .STATE_WAIT_COMMAND } := by
  obtain ⟨w1, w2, h1, hst, h2, hr, _⟩ := init_failure_not_retried deadBus
    (List.replicate 32 0) []
    { world_boot () with reader := { reader_zero with state := .STATE_INIT_PN532 } }
    (-ENODEV) 0x48 () rfl rfl (by decide)
  exact ⟨w1, w2, h1, hst, h2, hr⟩

/-! ## The scan request is not consumed -/

/-- C18 fails on the code: after one StartScan, on a bus whose answers the driver
accepts, the machine goes through a whole scan and its Success tick returns it to
WaitCommand with `scan_requested` still set; the next tick moves it to Detecting
again although no other StartScan was delivered. -/
theorem one_start_scan_starts_second_scan :
    (run_events cardBus5
        [.command PASSPORT_CMD_START_SCAN, .tick [], .tick (List.replicate 32 0), .tick [],
          .tick (List.replicate 256 0), .tick [], .tick [], .tick []] world_ready).map
        (fun ws => ws.map (fun w => (w.reader.state, w.reader.scan_requested))) =
      some [(.STATE_WAIT_COMMAND, true), (.STATE_DETECTING, true),
        (.STATE_CARD_DETECTED, true), (.STATE_SELECTING_APP, true),
        (.STATE_READING_DG1, true), (.STATE_SUCCESS, true),
        (.STATE_WAIT_COMMAND, true), (.STATE_DETECTING, true)] := by
  rfl

/-- The function `pn532_detect_card` never changes `reader.scan_requested`. -/
theorem detect_card_keeps_scan_requested {σ : Type} (bus : I2cBus σ) (addr : Nat)
    (junk : List Nat) (reader r : passport_reader_t) (s s1 : σ) (ret : Int)
    (h : pn532_detect_card bus addr junk reader s = some (ret, r, s1)) :
    r.scan_requested = reader.scan_requested := by
  unfold pn532_detect_card at h
  split at h
  · exact absurd h (by simp)
  · split at h
    · simp only [Option.some.injEq, Prod.mk.injEq] at h; rw [← h.2.1]
    · split at h
      · exact absurd h (by simp)
      · split at h
        · simp only [Option.some.injEq, Prod.mk.injEq] at h; rw [← h.2.1]
        · split at h
          · simp only [Option.some.injEq, Prod.mk.injEq] at h; rw [← h.2.1]
          · dsimp only at h
            split at h
            · simp only [Option.some.injEq, Prod.mk.injEq] at h; rw [← h.2.1]
            · split at h
              · simp only [Option.some.injEq, Prod.mk.injEq] at h
                rw [← h.2.1]
              · exact absurd h (by simp)

/-- A tick outside `STATE_ERROR` leaves `scan_requested` as it was. -/
theorem tick_keeps_scan_requested {σ : Type} (bus : I2cBus σ) (junk : List Nat)
    (w w1 : World σ) (hne : w.reader.state ≠ .STATE_ERROR)
    (h : passport_state_machine bus junk w = some w1) :
    w1.reader.scan_requested = w.reader.scan_requested := by
  unfold passport_state_machine at h
  split at h
  · simp only [Option.some.injEq] at h; subst h; rfl
  · split at h
    · exact absurd h (by simp)
    · split at h <;> (simp only [Option.some.injEq] at h; subst h; rfl)
  · split at h <;> (simp only [Option.some.injEq] at h; subst h; rfl)
  · split at h
    · simp only [Option.some.injEq] at h; subst h; rfl
    · split at h
      · exact absurd h (by simp)
      · next ret r s hd =>
        have hs := detect_card_keeps_scan_requested bus _ junk w.reader r w.bus s ret hd
        split at h <;> (simp only [Option.some.injEq] at h; subst h; exact hs)
  · simp only [Option.some.injEq] at h; subst h; rfl
  · split at h
    · exact absurd h (by simp)
    · split at h <;> (simp only [Option.some.injEq] at h; subst h; rfl)
  · dsimp only at h
    split at h <;> (simp only [Option.some.injEq] at h; subst h; rfl)
  · simp only [Option.some.injEq] at h; subst h; rfl
  · next hst => exact absurd hst hne

/-- A command other than StopScan and Reset does not clear `scan_requested`. -/
theorem command_keeps_scan_requested {σ : Type} (cmd : Nat) (w : World σ)
    (h2 : cmd ≠ PASSPORT_CMD_STOP_SCAN) (h4 : cmd ≠ PASSPORT_CMD_RESET)
    (hs : w.reader.scan_requested = true) :
    (handle_ble_command cmd w).reader.scan_requested = true := by
  unfold handle_ble_command
  rw [if_neg h2, if_neg h4]
  split
  · rfl
  · split
    · split
      · exact hs
      · exact hs
    · exact hs

/-- C18 as amended: a tick in `STATE_WAIT_COMMAND` with `scan_requested` set moves
the machine to `STATE_DETECTING` and leaves the flag set; with the flag clear it
leaves the world as it is.  The Success tick returns to `STATE_WAIT_COMMAND` with
the flag as it was, so with the flag set the tick after it moves to
`STATE_DETECTING` again.  A set flag is cleared by no event other than a StopScan
command, a Reset command and a tick in `STATE_ERROR`, and each of these three
clears it. -/
theorem scan_requested_is_a_mode {σ : Type} (bus : I2cBus σ) (junk junk1 : List Nat)
    (w : World σ) :
    (w.reader.state = .STATE_WAIT_COMMAND → w.reader.scan_requested = true →
        passport_state_machine bus junk w =
          some { w with reader := { w.reader with state := .STATE_DETECTING } } ∧
        ({ w.reader with state := .STATE_DETECTING } : passport_reader_t).scan_requested = true) ∧
      (w.reader.state = .STATE_WAIT_COMMAND → w.reader.scan_requested = false →
        passport_state_machine bus junk w = some w) ∧
      (w.reader.state = .STATE_SUCCESS → w.reader.scan_requested = true →
        ∃ w1 w2, passport_state_machine bus junk w = some w1 ∧
          w1.reader.state = .STATE_WAIT_COMMAND ∧ w1.reader.scan_requested = true ∧
          passport_state_machine bus junk1 w1 = some w2 ∧
          w2.reader.state = .STATE_DETECTING) ∧
      (∀ (e : Event) (w1 : World σ), step bus e w = some w1 →
        w.reader.scan_requested = true → w1.reader.scan_requested = false →
        e = .command PASSPORT_CMD_STOP_SCAN ∨ e = .command PASSPORT_CMD_RESET ∨
          ((∃ j, e = .tick j) ∧ w.reader.state = .STATE_ERROR)) ∧
      ((handle_ble_command PASSPORT_CMD_STOP_SCAN w).reader.scan_requested = false ∧
        (handle_ble_command PASSPORT_CMD_RESET w).reader.scan_requested = false ∧
        (w.reader.state = .STATE_ERROR →
          ∃ w1, passport_state_machine bus junk w = some w1 ∧
            w1.reader.scan_requested = false)) := by
  refine ⟨?_, ?_, ?_, ?_, rfl, rfl, ?_⟩
  · intro hst hscan
    refine ⟨?_, hscan⟩
    rw [wait_tick bus junk w hst, if_pos hscan]
  · intro hst hscan
    rw [wait_tick bus junk w hst, hscan]
    rfl
  · intro hst hscan
    have h2 : passport_state_machine bus junk1
        { w with
          reader := { w.reader with card_present := false, state := .STATE_WAIT_COMMAND }
          sent := w.sent ++
            [.status .PASSPORT_STATUS_SUCCESS, .data w.reader.passport_data] } =
        some { w with
          reader := { w.reader with card_present := false, state := .STATE_DETECTING }
          sent := w.sent ++
            [.status .PASSPORT_STATUS_SUCCESS, .data w.reader.passport_data] } := by
      rw [wait_tick bus junk1 _ rfl]
      simp only [hscan, if_true]
    exact ⟨_, _, success_tick bus junk w hst, rfl, hscan, h2, rfl⟩
  · intro e w1 hstep hs hc
    cases e with
    | tick j =>
      refine Or.inr (Or.inr ⟨⟨j, rfl⟩, ?_⟩)
      by_contra hne
      have hk := tick_keeps_scan_requested bus j w w1 hne hstep
      rw [hs, hc] at hk
      exact absurd hk (by simp)
    | command cmd =>
      simp only [step, Option.some.injEq] at hstep
      subst hstep
      by_cases h2 : cmd = PASSPORT_CMD_STOP_SCAN
      · exact Or.inl (by rw [h2])
      · by_cases h4 : cmd = PASSPORT_CMD_RESET
        · exact Or.inr (Or.inl (by rw [h4]))
        · have hk := command_keeps_scan_requested cmd w h2 h4 hs
          rw [hc] at hk
          exact absurd hk (by simp)
  · intro hst
    exact ⟨_, error_tick bus junk w hst, rfl⟩

theorem scan_requested_is_a_mode_witness :
    ∃ w1 w2, passport_state_machine cardBus5 []
        { world_ready with
          reader := { world_ready.reader with
            state := .STATE_SUCCESS, scan_requested := true } } = some w1 ∧
      w1.reader.state = .STATE_WAIT_COMMAND ∧ w1.reader.scan_requested = true ∧
      passport_state_machine cardBus5 [] w1 = some w2 ∧
      w2.reader.state = .STATE_DETECTING :=
  (scan_requested_is_a_mode cardBus5 [] []
    { world_ready with
      reader := { world_ready.reader with
        state := .STATE_SUCCESS, scan_requested := true } }).2.2.1 rfl rfl

/-! ## Error self-heal -/

/-- C19: one tick in `STATE_ERROR` notifies exactly Error and yields a reader in
`STATE_WAIT_COMMAND` whose target number, uid, uid length, `card_present`,
`scan_requested` and record are zero. -/
theorem error_tick_self_heals {σ : Type} (bus : I2cBus σ) (junk : List Nat) (w : World σ)
    (hst : w.reader.state = .STATE_ERROR) :
    ∃ w1, passport_state_machine bus junk w = some w1 ∧
      w1.sent = w.sent ++ [.status .PASSPORT_STATUS_ERROR] ∧
      w1.reader = { reader_zero with state := .STATE_WAIT_COMMAND } ∧
      w1.reader.state = .STATE_WAIT_COMMAND ∧
      w1.reader.target_number = 0 ∧ w1.reader.uid = List.replicate 10 0 ∧
      w1.reader.uid_len = 0 ∧ w1.reader.card_present = false ∧
      w1.reader.scan_requested = false ∧ w1.reader.passport_data = passport_data_zero := by
  unfold passport_state_machine
  rw [hst]
  exact ⟨_, rfl, rfl, rfl, rfl, rfl, rfl, rfl, rfl, rfl, rfl⟩

theorem error_tick_self_heals_witness :
    ∃ w1, passport_state_machine cardBus []
        { world_ready with
          reader := { world_ready.reader with
            state := .STATE_ERROR, uid_len := 4, target_number := 1, card_present := true,
            scan_requested := true } } = some w1 ∧
      w1.sent = [.status .PASSPORT_STATUS_ERROR] ∧
      w1.reader = { reader_zero with state := .STATE_WAIT_COMMAND } := by
  obtain ⟨w1, h, hs, hr, _⟩ := error_tick_self_heals cardBus []
    { world_ready with
      reader := { world_ready.reader with
        state := .STATE_ERROR, uid_len := 4, target_number := 1, card_present := true,
        scan_requested := true } } rfl
  exact ⟨w1, h, hs, hr⟩

/-! ## Bounded discovery -/

/-- Reading the acknowledgement adds nothing to the write log. -/
theorem read_ack_traced_log {σ : Type} (bus : I2cBus σ) (addr : Nat)
    (s : σ × List (Nat × List Nat)) :
    (pn532_read_ack (traced bus) addr s).2.2 = s.2 := by
  unfold pn532_read_ack
  dsimp only
  split <;> rfl

/-- Reading a response adds nothing to the write log. -/
theorem read_response_traced_log {σ : Type} (bus : I2cBus σ) (addr cap : Nat)
    (s : σ × List (Nat × List Nat)) (resp : List Nat) (resp_len : Nat)
    (o : ReadOut) (s1 : σ × List (Nat × List Nat))
    (h : pn532_read_response (traced bus) addr cap s resp resp_len = some (o, s1)) :
    s1.2 = s.2 := by
  have hlog : ((traced bus).read (pn532_read_ack (traced bus) addr s).2 FRAME_SIZE addr).2.2.2 =
      s.2 := read_ack_traced_log bus addr s
  unfold pn532_read_response at h
  dsimp only at h
  split at h
  · simp only [Option.some.injEq, Prod.mk.injEq] at h
    rw [← h.2]
    exact hlog
  · split at h
    · exact absurd h (by simp)
    · simp only [Option.some.injEq, Prod.mk.injEq] at h
      rw [← h.2]
      exact hlog

/-- Byte `i` of a decoded payload is byte `k + i` of the frame it was copied from. -/
theorem getD_take_drop (l r : List Nat) (n k i : Nat) (hi : i < n) (hk : k + i < l.length) :
    ((l.drop k).take n ++ r).getD i 0 = l.getD (k + i) 0 := by
  rw [List.getD_eq_getElem?_getD, List.getD_eq_getElem?_getD,
    List.getElem?_append_left (by rw [List.length_take, List.length_drop]; omega),
    List.getElem?_take_of_lt hi, List.getElem?_drop]

/-- Classification of a list-passive-target reply of which the decoder delivers
at least two bytes (`LEN ≥ 4`): a first payload byte other than `4B` gives
`-EINVAL`, the byte `4B` with target count 0 gives `-ENODEV`, whatever the stack
held, and the reader is returned as it was. -/
theorem detect_card_classification {σ : Type} (bus : I2cBus σ) (addr : Nat)
    (junk frame : List Nat) (reader : passport_reader_t) (s s1 s2 : σ)
    (hw : pn532_write_command bus addr s
      [PN532_CMD_INLISTPASSIVETARGET, 0x01, PN532_MIFARE_ISO14443A] 3 = some (0, s1))
    (hrd : bus.read (pn532_read_ack bus addr s1).2 FRAME_SIZE addr = (0, frame, s2))
    (hlen : frame.length = 64)
    (hpre : frame.getD (ready_offset frame) 0 = 0x00 ∧
      frame.getD (ready_offset frame + 1) 0 = 0x00 ∧
      frame.getD (ready_offset frame + 2) 0 = 0xFF)
    (h4 : 4 ≤ frame.getD (ready_offset frame + 3) 0)
    (h34 : frame.getD (ready_offset frame + 3) 0 ≤ 34) :
    (frame.getD (ready_offset frame + 6) 0 ≠ 0x4B →
        pn532_detect_card bus addr junk reader s = some (-EINVAL, reader, s2)) ∧
      (frame.getD (ready_offset frame + 6) 0 = 0x4B →
        frame.getD (ready_offset frame + 7) 0 = 0 →
        pn532_detect_card bus addr junk reader s = some (-ENODEV, reader, s2)) := by
  have hoff : ready_offset frame ≤ 1 := by unfold ready_offset; split <;> omega
  have hp := parse_valid_preamble 32 frame junk 0 hpre (by omega) (by omega) (by omega)
  have hr := read_response_of_read bus addr 32 s1 s2 frame junk 0 hrd
  rw [hp] at hr
  have h0 := getD_take_drop frame
    (List.drop (frame.getD (ready_offset frame + 3) 0 - 2) junk)
    (frame.getD (ready_offset frame + 3) 0 - 2) (ready_offset frame + 6) 0 (by omega) (by omega)
  have h1 := getD_take_drop frame
    (List.drop (frame.getD (ready_offset frame + 3) 0 - 2) junk)
    (frame.getD (ready_offset frame + 3) 0 - 2) (ready_offset frame + 6) 1 (by omega) (by omega)
  simp only [Nat.add_zero] at h0
  rw [show ready_offset frame + 6 + 1 = ready_offset frame + 7 from rfl] at h1
  simp only [PN532_CMD_INLISTPASSIVETARGET, PN532_MIFARE_ISO14443A] at hw
  constructor
  · intro hne
    unfold pn532_detect_card
    simp only [PN532_CMD_INLISTPASSIVETARGET, PN532_MIFARE_ISO14443A, hw, hr, Option.map_some',
      ne_eq, not_true_eq_false, if_false, h0, Nat.reduceAdd, hne, not_false_eq_true, if_true]
  · intro he hz
    unfold pn532_detect_card
    simp only [PN532_CMD_INLISTPASSIVETARGET, PN532_MIFARE_ISO14443A, hw, hr, Option.map_some',
      ne_eq, not_true_eq_false, if_false, h0, h1, Nat.reduceAdd, he, hz, if_true]

set_option maxRecDepth 8192 in
/-- C21 fails on the code: the well-formed reply to list-passive-target that
announces no target has payload `4B 00` and lies in the read buffer as
`00 00 FF 03 FD D5 4B 00 E0 00`.  The decoder delivers one byte of it, so the
target count `pn532_detect_card` tests is the byte the stack held at `resp[1]`.
With a zero stack the function returns `-ENODEV`; with the bytes an earlier
detection left there it returns 0, stores target number 1, uid length 4 and the
stale uid bytes, and sets `card_present`; the Detecting tick then moves to
`STATE_CARD_DETECTED` without a card. -/
theorem detect_card_no_target_reads_stale_count :
    device_frame [0x4B, 0x00] =
        [0x00, 0x00, 0xFF, 0x03, 0xFD, 0xD5, 0x4B, 0x00, 0xE0, 0x00] ++
          List.replicate 54 0 ∧
      pn532_read_response_parse 32 (device_frame [0x4B, 0x00]) stale_resp 0 =
        some ⟨0, stale_resp, 1⟩ ∧
      pn532_detect_card (fixedBus (device_frame [0x4B, 0x00])) 0x24 (List.replicate 32 0)
          reader_zero () = some (-ENODEV, reader_zero, ()) ∧
      pn532_detect_card (fixedBus (device_frame [0x4B, 0x00])) 0x24 stale_resp
          reader_zero () =
        some (0,
          { reader_zero with
            target_number := 1
            uid_len := 4
            uid := [0xDE, 0xAD, 0xBE, 0x00, 0, 0, 0, 0, 0, 0]
            passport_data :=
              { passport_data_zero with
                uid := [0xDE, 0xAD, 0xBE, 0x00, 0, 0, 0, 0, 0, 0]
                uid_len := 4 }
            card_present := true }, ()) ∧
      (passport_state_machine (fixedBus (device_frame [0x4B, 0x00])) stale_resp
          world_detecting).map (fun w => (w.reader.state, w.reader.card_present)) =
        some (.STATE_CARD_DETECTED, true) := by
  refine ⟨rfl, ?_, ?_, ?_, ?_⟩
  · rfl
  · rfl
  · rfl
  · rfl

/-! ## Ready byte -/

/-- Byte `i + 1` of the buffer read when a ready byte precedes `F` is byte `i` of `F`. -/
theorem getD_cons_take (F : List Nat) (i : Nat) (hi : i < 63) :
    ((0x01 :: F).take 64).getD (i + 1) 0 = F.getD i 0 := by
  rw [List.getD_eq_getElem?_getD, List.getD_eq_getElem?_getD,
    List.getElem?_take_of_lt (by omega), List.getElem?_cons_succ]

/-- The payload bytes of the shifted buffer are those of `F` when they still fit. -/
theorem drop_cons_take (F : List Nat) (n : Nat) (hn : 7 + n ≤ 64) :
    (((0x01 :: F).take 64).drop 7).take n = (F.drop 6).take n := by
  rw [show (64 : Nat) = 63 + 1 from rfl, List.take_succ_cons,
    show (7 : Nat) = 6 + 1 from rfl, List.drop_succ_cons, List.drop_take, List.take_take]
  congr 1
  omega

/-- The parser on a buffer that starts with `00 00 FF`. -/
theorem parse_plain (cap : Nat) (F resp : List Nat) (resp_len : Nat)
    (h0 : F.getD 0 0 = 0x00) (h1 : F.getD 1 0 = 0x00) (h2 : F.getD 2 0 = 0xFF) :
    pn532_read_response_parse cap F resp resp_len =
      if 6 + u8 ((F.getD 3 0 : Int) - 2) ≤ 64 ∧ u8 ((F.getD 3 0 : Int) - 2) ≤ cap then
        some ⟨0, (F.drop 6).take (u8 ((F.getD 3 0 : Int) - 2)) ++
          resp.drop (u8 ((F.getD 3 0 : Int) - 2)), u8 ((F.getD 3 0 : Int) - 2)⟩
      else none := by
  have oF : ready_offset F = 0 := by unfold ready_offset; rw [h0]; rfl
  unfold pn532_read_response_parse
  rw [if_neg (by rw [h1]; simp)]
  simp only [oF, h0, h1, h2, PN532_PREAMBLE, PN532_STARTCODE1, PN532_STARTCODE2, FRAME_SIZE,
    memcpy_zero, ne_eq, not_true_eq_false, or_self, if_false, Nat.zero_add]

/-- The parser on the buffer read when a ready byte precedes a frame `F` that
starts with `00 00 FF`. -/
theorem parse_shifted (cap : Nat) (F resp : List Nat) (resp_len : Nat)
    (h0 : F.getD 0 0 = 0x00) (h1 : F.getD 1 0 = 0x00) (h2 : F.getD 2 0 = 0xFF) :
    pn532_read_response_parse cap ((0x01 :: F).take 64) resp resp_len =
      if 7 + u8 ((F.getD 3 0 : Int) - 2) ≤ 64 ∧ u8 ((F.getD 3 0 : Int) - 2) ≤ cap then
        some ⟨0, (((0x01 :: F).take 64).drop 7).take (u8 ((F.getD 3 0 : Int) - 2)) ++
          resp.drop (u8 ((F.getD 3 0 : Int) - 2)), u8 ((F.getD 3 0 : Int) - 2)⟩
      else none := by
  have g0 : ((0x01 :: F).take 64).getD 0 0 = 0x01 := rfl
  have g1 : ((0x01 :: F).take 64).getD 1 0 = F.getD 0 0 := getD_cons_take F 0 (by omega)
  have g2 : ((0x01 :: F).take 64).getD 2 0 = F.getD 1 0 := getD_cons_take F 1 (by omega)
  have g3 : ((0x01 :: F).take 64).getD 3 0 = F.getD 2 0 := getD_cons_take F 2 (by omega)
  have g4 : ((0x01 :: F).take 64).getD 4 0 = F.getD 3 0 := getD_cons_take F 3 (by omega)
  have oF : ready_offset ((0x01 :: F).take 64) = 1 := by unfold ready_offset; rw [g0]; rfl
  unfold pn532_read_response_parse
  rw [if_neg (by rw [g0]; simp)]
  simp only [oF, g1, g2, g3, g4, h0, h1, h2, PN532_PREAMBLE, PN532_STARTCODE1,
    PN532_STARTCODE2, FRAME_SIZE, memcpy_zero, ne_eq, not_true_eq_false, or_self, if_false,
    Nat.reduceAdd]

/-- The ready byte changes the decoding of a frame at one decoded length only:
58 (`LEN = 60`), where the payload of `F` ends with the buffer and the shifted
one does not fit. -/
theorem ready_byte_shift (cap : Nat) (F resp : List Nat) (resp_len : Nat)
    (h0 : F.getD 0 0 = 0x00) (h1 : F.getD 1 0 = 0x00) (h2 : F.getD 2 0 = 0xFF)
    (hne : u8 ((F.getD 3 0 : Int) - 2) ≠ 58) :
    pn532_read_response_parse cap ((0x01 :: F).take 64) resp resp_len =
      pn532_read_response_parse cap F resp resp_len := by
  rw [parse_plain cap F resp resp_len h0 h1 h2, parse_shifted cap F resp resp_len h0 h1 h2]
  by_cases hfit : 7 + u8 ((F.getD 3 0 : Int) - 2) ≤ 64
  · rw [drop_cons_take F _ hfit]
    by_cases hc : u8 ((F.getD 3 0 : Int) - 2) ≤ cap
    · rw [if_pos ⟨hfit, hc⟩, if_pos ⟨by omega, hc⟩]
    · rw [if_neg (fun h => hc h.2), if_neg (fun h => hc h.2)]
  · rw [if_neg (fun h => hfit h.1), if_neg (fun h => hfit (by omega))]

/-- C22: for every 64-byte frame `F` that begins with `00 00 FF` and whose
decoded payload still fits the 64-byte read buffer when shifted by one byte, the
parser gives on the buffer read for `[0x01] ++ F` the same result as on `F` (return
value, payload length and bytes of the response buffer), so does
`pn532_read_response` on buses that answer with the two buffers, and when the
payload also fits the caller's buffer that result is success with the payload
bytes `F[6 ..]`. -/
theorem ready_byte_tolerated (cap : Nat) (F resp : List Nat) (resp_len : Nat)
    (hlen : F.length = 64)
    (h0 : F.getD 0 0 = 0x00) (h1 : F.getD 1 0 = 0x00) (h2 : F.getD 2 0 = 0xFF)
    (hfit : 1 + 6 + u8 ((F.getD 3 0 : Int) - 2) ≤ 64) :
    pn532_read_response_parse cap ((0x01 :: F).take 64) resp resp_len =
        pn532_read_response_parse cap F resp resp_len ∧
      pn532_read_response (fixedBus (0x01 :: F)) 0x24 cap () resp resp_len =
        pn532_read_response (fixedBus F) 0x24 cap () resp resp_len ∧
      (u8 ((F.getD 3 0 : Int) - 2) ≤ cap →
        pn532_read_response_parse cap F resp resp_len =
          some ⟨0, (F.drop 6).take (u8 ((F.getD 3 0 : Int) - 2)) ++
            resp.drop (u8 ((F.getD 3 0 : Int) - 2)), u8 ((F.getD 3 0 : Int) - 2)⟩) := by
  have heq := ready_byte_shift cap F resp resp_len h0 h1 h2 (by omega)
  refine ⟨heq, ?_, ?_⟩
  · rw [read_response_of_read (fixedBus (0x01 :: F)) 0x24 cap () () ((0x01 :: F).take 64)
        resp resp_len rfl,
      read_response_of_read (fixedBus F) 0x24 cap () () F resp resp_len
        (by show (0, F.take 64, ()) = (0, F, ()); rw [List.take_of_length_le (by omega)]),
      heq]
  · intro hc
    rw [parse_plain cap F resp resp_len h0 h1 h2, if_pos ⟨by omega, hc⟩]

set_option maxRecDepth 8192 in
theorem ready_byte_tolerated_witness :
    pn532_read_response_parse 32 ((0x01 :: device_frame target_payload).take 64)
        (List.replicate 32 0) 0 =
      pn532_read_response_parse 32 (device_frame target_payload) (List.replicate 32 0) 0 ∧
    pn532_read_response_parse 32 (device_frame target_payload) (List.replicate 32 0) 0 =
      some ⟨0, [0x4B, 0x01, 0x01, 0x00, 0x04, 0x20, 0x04, 0xDE, 0xAD, 0xBE] ++
        List.replicate 22 0, 10⟩ :=
  ⟨(ready_byte_tolerated 32 (device_frame target_payload) (List.replicate 32 0) 0
      rfl rfl rfl rfl (by decide)).1,
    ((ready_byte_tolerated 32 (device_frame target_payload) (List.replicate 32 0) 0
      rfl rfl rfl rfl (by decide)).2.2 (by decide)).trans (by decide)⟩

/-! ## Select command -/

/-- The frame `pn532_write_command` builds for the select command of target `t`. -/
theorem select_frame_eq (t : Nat) :
    pn532_write_command_frame (List.replicate FRAME_SIZE 0)
        ([PN532_CMD_INDATAEXCHANGE, t] ++ SELECT_EPASSPORT_APP)
        (SELECT_EPASSPORT_APP.length + 2) =
      some ([0x00, 0x00, 0xFF, 0x0F, 0xF1, 0xD4] ++
        [0x40, t, 0x00, 0xA4, 0x04, 0x0C, 0x07, 0xA0, 0x00, 0x00, 0x02, 0x47, 0x10, 0x01] ++
        [(256 - (0xD4 + [0x40, t, 0x00, 0xA4, 0x04, 0x0C, 0x07, 0xA0, 0x00, 0x00, 0x02,
            0x47, 0x10, 0x01].sum) % 256) % 256, 0x00]) :=
  write_frame_eq (List.replicate FRAME_SIZE 0)
    [0x40, t, 0x00, 0xA4, 0x04, 0x0C, 0x07, 0xA0, 0x00, 0x00, 0x02, 0x47, 0x10, 0x01]
    rfl (by simp)

/-- C23: for every reader with target number `t`, the command
`select_passport_application` hands to `pn532_write_command` is the 14-byte
sequence `40 t 00 A4 04 0C 07 A0 00 00 02 47 10 01`; the frame written to the bus
is `00 00 FF 0F F1 D4`, these 14 bytes, the data checksum and `00`, so its `LEN`
byte is `0F`; on a bus that logs its writes this frame is the one write the
function adds whenever it returns; and two readers with the same target number
give the same result, whatever their other fields. -/
theorem select_command_bytes {σ : Type} (bus : I2cBus σ) (addr : Nat) (resp : List Nat)
    (reader : passport_reader_t) (s : σ) (l : List (Nat × List Nat)) :
    ([PN532_CMD_INDATAEXCHANGE, reader.target_number] ++ SELECT_EPASSPORT_APP =
          [0x40, reader.target_number, 0x00, 0xA4, 0x04, 0x0C, 0x07, 0xA0, 0x00, 0x00, 0x02,
            0x47, 0x10, 0x01] ∧
        SELECT_EPASSPORT_APP.length + 2 = 14) ∧
      pn532_write_command (traced bus) addr (s, l)
          ([PN532_CMD_INDATAEXCHANGE, reader.target_number] ++ SELECT_EPASSPORT_APP)
          (SELECT_EPASSPORT_APP.length + 2) =
        some ((traced bus).write (s, l)
          ([0x00, 0x00, 0xFF, 0x0F, 0xF1, 0xD4] ++
            [0x40, reader.target_number, 0x00, 0xA4, 0x04, 0x0C, 0x07, 0xA0, 0x00, 0x00,
              0x02, 0x47, 0x10, 0x01] ++
            [(256 - (0xD4 + [0x40, reader.target_number, 0x00, 0xA4, 0x04, 0x0C, 0x07, 0xA0,
                0x00, 0x00, 0x02, 0x47, 0x10, 0x01].sum) % 256) % 256, 0x00]) addr) ∧
      (∀ (ret : Int) (s1 : σ × List (Nat × List Nat)),
        select_passport_application (traced bus) addr resp reader (s, l) = some (ret, s1) →
        s1.2 = l ++ [(addr,
          [0x00, 0x00, 0xFF, 0x0F, 0xF1, 0xD4] ++
            [0x40, reader.target_number, 0x00, 0xA4, 0x04, 0x0C, 0x07, 0xA0, 0x00, 0x00,
              0x02, 0x47, 0x10, 0x01] ++
            [(256 - (0xD4 + [0x40, reader.target_number, 0x00, 0xA4, 0x04, 0x0C, 0x07, 0xA0,
                0x00, 0x00, 0x02, 0x47, 0x10, 0x01].sum) % 256) % 256, 0x00])]) ∧
      ∀ reader1 : passport_reader_t, reader1.target_number = reader.target_number →
        select_passport_application bus addr resp reader1 s =
          select_passport_application bus addr resp reader s := by
  have hw : pn532_write_command (traced bus) addr (s, l)
      ([PN532_CMD_INDATAEXCHANGE, reader.target_number] ++ SELECT_EPASSPORT_APP)
      (SELECT_EPASSPORT_APP.length + 2) =
      some ((traced bus).write (s, l)
        ([0x00, 0x00, 0xFF, 0x0F, 0xF1, 0xD4] ++
          [0x40, reader.target_number, 0x00, 0xA4, 0x04, 0x0C, 0x07, 0xA0, 0x00, 0x00,
            0x02, 0x47, 0x10, 0x01] ++
          [(256 - (0xD4 + [0x40, reader.target_number, 0x00, 0xA4, 0x04, 0x0C, 0x07, 0xA0,
              0x00, 0x00, 0x02, 0x47, 0x10, 0x01].sum) % 256) % 256, 0x00]) addr) := by
    unfold pn532_write_command
    rw [select_frame_eq]
  refine ⟨⟨rfl, rfl⟩, hw, ?_, ?_⟩
  · intro ret s1 h
    unfold select_passport_application at h
    rw [hw] at h
    dsimp only at h
    split at h
    · simp only [Option.some.injEq, Prod.mk.injEq] at h
      rw [← h.2]
      rfl
    · split at h
      · exact absurd h (by simp)
      · next o s2 hr =>
        have hlog := read_response_traced_log bus addr 256 _ resp 0 o s2 hr
        have h2 : s1 = s2 := by
          split at h
          · simp only [Option.some.injEq, Prod.mk.injEq] at h; exact h.2.symm
          · split at h <;>
              (simp only [Option.some.injEq, Prod.mk.injEq] at h; exact h.2.symm)
        rw [h2, hlog]
        rfl
  · intro reader1 h1
    unfold select_passport_application
    rw [h1]

theorem select_command_bytes_witness :
    ∃ ret s1,
      select_passport_application (traced cardBus5) 0x24 []
          { reader_zero with target_number := 1 } (0, []) = some (ret, s1) ∧
        s1.2 = [(0x24, [0x00, 0x00, 0xFF, 0x0F, 0xF1, 0xD4, 0x40, 0x01, 0x00, 0xA4, 0x04, 0x0C,
          0x07, 0xA0, 0x00, 0x00, 0x02, 0x47, 0x10, 0x01, 0x36, 0x00])] :=
  ⟨_, _, rfl,
    ((select_command_bytes cardBus5 0x24 [] { reader_zero with target_number := 1 } 0 []).2.2.1
      _ _ rfl).trans (by decide)⟩

/-! ## Decoded length -/

set_option maxRecDepth 8192 in
/-- C24 fails on the code: the 64-byte buffer that holds the acknowledgement
frame `00 00 FF 00 FF 00` passes the preamble check and its `LEN` byte is 0, for
which `pn532_read_response` reports the length 254; `LEN = 1` gives 255 and
`LEN = 0x28` gives 38.  The copy of 254 or 255 bytes reads past the 64-byte frame
whatever the size of the caller's buffer, and the copy of 38 bytes stays inside
the frame but exceeds the 32-byte `resp` of `pn532_detect_card` and `pn532_init`:
the decoder, and with it both callers, have no defined result. -/
theorem decode_length_unchecked :
    (ack_frame.length = 64 ∧ ack_frame.getD 0 0 = PN532_PREAMBLE ∧
        ack_frame.getD 1 0 = PN532_STARTCODE1 ∧ ack_frame.getD 2 0 = PN532_STARTCODE2) ∧
      reported_len ack_frame = 254 ∧
      reported_len (len_frame 1) = 255 ∧
      reported_len (len_frame 0x28) = 38 ∧
      pn532_read_response_parse 32 ack_frame (List.replicate 32 0) 0 = none ∧
      pn532_read_response_parse 256 ack_frame (List.replicate 256 0) 0 = none ∧
      pn532_read_response_parse 32 (len_frame 1) (List.replicate 32 0) 0 = none ∧
      pn532_read_response_parse 32 (len_frame 0x28) (List.replicate 32 0) 0 = none ∧
      (pn532_read_response_parse 256 (len_frame 0x28) (List.replicate 256 0) 0).map
          (fun o => (o.ret, o.resp_len)) = some (0, 38) ∧
      pn532_detect_card (fixedBus ack_frame) 0x24 (List.replicate 32 0) reader_zero () =
        none ∧
      pn532_init (fixedBus ack_frame) 0x24 () (List.replicate 32 0) = none := by
  refine ⟨⟨rfl, rfl, rfl, rfl⟩, ?_, ?_, ?_, ?_, ?_, ?_, ?_, ?_, ?_, ?_⟩
  · decide
  · decide
  · decide
  · rfl
  · rfl
  · rfl
  · rfl
  · rfl
  · rfl
  · rfl

/-! ## Scan without initialisation -/

/-- A tick keeps an unstarted reader unstarted. -/
theorem tick_unstarted {σ : Type} (bus : I2cBus σ) (junk : List Nat) (w w1 : World σ)
    (hu : unstarted w.reader) (h : passport_state_machine bus junk w = some w1) :
    unstarted w1.reader := by
  obtain ⟨hs, hst⟩ := hu
  unfold passport_state_machine at h
  split at h
  · simp only [Option.some.injEq] at h; subst h
    exact ⟨hs, Or.inr (Or.inl rfl)⟩
  · split at h
    · exact absurd h (by simp)
    · split at h <;> (simp only [Option.some.injEq] at h; subst h)
      · exact ⟨hs, Or.inr (Or.inr (Or.inl rfl))⟩
      · exact ⟨hs, Or.inr (Or.inr (Or.inr rfl))⟩
  · rw [hs] at h
    simp only [Bool.false_eq_true, if_false, Option.some.injEq] at h
    subst h
    exact ⟨hs, hst⟩
  · next hd => rw [hd] at hst; simp at hst
  · next hd => rw [hd] at hst; simp at hst
  · next hd => rw [hd] at hst; simp at hst
  · next hd => rw [hd] at hst; simp at hst
  · next hd => rw [hd] at hst; simp at hst
  · simp only [Option.some.injEq] at h; subst h
    exact ⟨rfl, Or.inr (Or.inr (Or.inl rfl))⟩

/-- A command other than StartScan keeps an unstarted reader unstarted. -/
theorem command_unstarted {σ : Type} (cmd : Nat) (w : World σ)
    (hc : cmd ≠ PASSPORT_CMD_START_SCAN) (hu : unstarted w.reader) :
    unstarted (handle_ble_command cmd w).reader := by
  unfold handle_ble_command
  rw [if_neg hc]
  split
  · exact ⟨rfl, Or.inr (Or.inr (Or.inl rfl))⟩
  · split
    · split
      · exact hu
      · exact hu
    · split
      · exact ⟨rfl, Or.inr (Or.inr (Or.inl rfl))⟩
      · exact hu

/-- No command puts the machine in `STATE_DETECTING` when it was not there. -/
theorem command_not_detecting {σ : Type} (cmd : Nat) (w : World σ)
    (h : w.reader.state ≠ .STATE_DETECTING) :
    (handle_ble_command cmd w).reader.state ≠ .STATE_DETECTING := by
  unfold handle_ble_command
  split
  · exact h
  · split
    · simp
    · split
      · split
        · exact h
        · exact h
      · split
        · simp
        · exact h

/-- An unstarted reader is not in `STATE_DETECTING`. -/
theorem unstarted_not_detecting (r : passport_reader_t) (hu : unstarted r) :
    r.state ≠ .STATE_DETECTING := by
  obtain ⟨_, h | h | h | h⟩ := hu <;> rw [h] <;> simp

/-- From an unstarted reader, a world in `STATE_DETECTING` is preceded by a
StartScan command. -/
theorem run_events_unstarted {σ : Type} (bus : I2cBus σ) (events : List Event) :
    ∀ (w : World σ) (ws : List (World σ)), unstarted w.reader →
      run_events bus events w = some ws →
      ∀ (i : Nat) (wi : World σ), ws[i]? = some wi →
        wi.reader.state = .STATE_DETECTING →
        ∃ j, j < i ∧ events[j]? = some (.command PASSPORT_CMD_START_SCAN) := by
  induction events with
  | nil =>
    intro w ws _ h i wi hi _
    simp only [run_events, Option.some.injEq] at h
    subst h
    simp at hi
  | cons e es ih =>
    intro w ws hu h i wi hi hdet
    unfold run_events at h
    split at h
    · exact absurd h (by simp)
    · next wa hstep =>
      split at h
      · exact absurd h (by simp)
      · next ws1 hrest =>
        simp only [Option.some.injEq] at h
        subst h
        cases i with
        | zero =>
          simp only [List.getElem?_cons_zero, Option.some.injEq] at hi
          subst hi
          exfalso
          cases e with
          | tick junk =>
            exact unstarted_not_detecting _ (tick_unstarted bus junk w wa hu hstep) hdet
          | command cmd =>
            simp only [step, Option.some.injEq] at hstep
            subst hstep
            exact command_not_detecting cmd w (unstarted_not_detecting _ hu) hdet
        | succ k =>
          simp only [List.getElem?_cons_succ] at hi
          have hnext : unstarted wa.reader →
              ∃ j, j < k + 1 ∧ (e :: es)[j]? = some (.command PASSPORT_CMD_START_SCAN) := by
            intro hua
            obtain ⟨j, hj, hej⟩ := ih wa ws1 hua hrest k wi hi hdet
            exact ⟨j + 1, by omega, by rw [List.getElem?_cons_succ]; exact hej⟩
          cases e with
          | tick junk => exact hnext (tick_unstarted bus junk w wa hu hstep)
          | command cmd =>
            by_cases hc : cmd = PASSPORT_CMD_START_SCAN
            · exact ⟨0, by omega, by rw [hc, List.getElem?_cons_zero]⟩
            · simp only [step, Option.some.injEq] at hstep
              subst hstep
              exact hnext (command_unstarted cmd w hc hu)

/-- C25 fails on the code: started in `STATE_IDLE` on a bus without a device, a
StopScan command, a StartScan command and one tick bring the machine to
`STATE_DETECTING` although no tick ran in `STATE_INIT_PN532`; so does a run in
which the Init tick fails (Init, Error, WaitCommand, StartScan, tick); and after
Reset and StartScan the second tick writes the list-passive-target frame
`00 00 FF 04 FC D4 4A 01 00 E1 00` on the bus. -/
theorem detecting_without_init :
    (run_events deadBus
        [.command PASSPORT_CMD_STOP_SCAN, .command PASSPORT_CMD_START_SCAN, .tick []]
        (world_boot ())).map (fun ws => ws.map (fun w => w.reader.state)) =
      some [.STATE_WAIT_COMMAND, .STATE_WAIT_COMMAND, .STATE_DETECTING] ∧
    (run_events deadBus
        [.tick [], .tick (List.replicate 32 0), .tick [],
          .command PASSPORT_CMD_START_SCAN, .tick []]
        (world_boot ())).map (fun ws => ws.map (fun w => w.reader.state)) =
      some [.STATE_INIT_PN532, .STATE_ERROR, .STATE_WAIT_COMMAND, .STATE_WAIT_COMMAND,
        .STATE_DETECTING] ∧
    (run_events (traced deadBus)
        [.command PASSPORT_CMD_RESET, .command PASSPORT_CMD_START_SCAN, .tick [],
          .tick (List.replicate 32 0)]
        (world_boot ((), []))).map
        (fun ws => ws.map (fun w => (w.reader.state, w.bus.2))) =
      some [(.STATE_WAIT_COMMAND, []), (.STATE_WAIT_COMMAND, []), (.STATE_DETECTING, []),
        (.STATE_DETECTING,
          [(0x24, [0x00, 0x00, 0xFF, 0x04, 0xFC, 0xD4, 0x4A, 0x01, 0x00, 0xE1, 0x00])])] := by
  refine ⟨rfl, rfl, rfl⟩

/-- C25 as amended: in every run of ticks and operator commands from the initial
Idle state, a world in `STATE_DETECTING` is preceded by a StartScan command.  A
successful Init tick is not needed: StopScan and Reset put the machine in
`STATE_WAIT_COMMAND` from any state, and from `STATE_WAIT_COMMAND` a StartScan
followed by a tick leads to `STATE_DETECTING`. -/
theorem detecting_only_after_start_scan {σ : Type} (bus : I2cBus σ) (s : σ)
    (events : List Event) (ws : List (World σ)) (i : Nat) (w : World σ)
    (hrun : run_events bus events (world_boot s) = some ws)
    (hi : ws[i]? = some w) (hdet : w.reader.state = .STATE_DETECTING) :
    (∃ j, j < i ∧ events[j]? = some (.command PASSPORT_CMD_START_SCAN)) ∧
      (∀ w0 : World σ,
        (handle_ble_command PASSPORT_CMD_STOP_SCAN w0).reader.state = .STATE_WAIT_COMMAND ∧
        (handle_ble_command PASSPORT_CMD_RESET w0).reader.state = .STATE_WAIT_COMMAND) ∧
      ∀ (w0 : World σ) (junk : List Nat), w0.reader.state = .STATE_WAIT_COMMAND →
        ∃ w1, passport_state_machine bus junk
            (handle_ble_command PASSPORT_CMD_START_SCAN w0) = some w1 ∧
          w1.reader.state = .STATE_DETECTING := by
  refine ⟨?_, fun w0 => ⟨rfl, rfl⟩, ?_⟩
  · exact run_events_unstarted bus events (world_boot s) ws
      ⟨rfl, Or.inl rfl⟩ hrun i w hi hdet
  · intro w0 junk h0
    refine ⟨{ (handle_ble_command PASSPORT_CMD_START_SCAN w0) with
      reader := { (handle_ble_command PASSPORT_CMD_START_SCAN w0).reader with
        state := .STATE_DETECTING } }, ?_, rfl⟩
    unfold passport_state_machine
    have hst : (handle_ble_command PASSPORT_CMD_START_SCAN w0).reader.state =
        .STATE_WAIT_COMMAND := h0
    rw [hst]
    rfl

theorem detecting_only_after_start_scan_witness :
    ∃ j, j < 2 ∧
      [Event.command PASSPORT_CMD_STOP_SCAN, .command PASSPORT_CMD_START_SCAN, .tick []][j]? =
        some (.command PASSPORT_CMD_START_SCAN) :=
  (detecting_only_after_start_scan deadBus ()
    [.command PASSPORT_CMD_STOP_SCAN, .command PASSPORT_CMD_START_SCAN, .tick []] _ 2 _
    rfl rfl rfl).1

/-! ## Unknown commands -/

/-- C26: for every command byte other than `0x01` (StartScan), `0x02` (StopScan),
`0x03` (GetData) and `0x04` (Reset), and every state of the firmware,
`handle_ble_command` leaves the reader as it was and makes no notifier call: the
world after the call is the world before it. -/
theorem unknown_command_inert {σ : Type} (cmd : Nat) (w : World σ)
    (h1 : cmd ≠ 0x01) (h2 : cmd ≠ 0x02) (h3 : cmd ≠ 0x03) (h4 : cmd ≠ 0x04) :
    (handle_ble_command cmd w).reader = w.reader ∧
      (handle_ble_command cmd w).sent = w.sent ∧ handle_ble_command cmd w = w := by
  have h : handle_ble_command cmd w = w := by
    unfold handle_ble_command
    simp only [PASSPORT_CMD_START_SCAN, PASSPORT_CMD_STOP_SCAN, PASSPORT_CMD_GET_DATA,
      PASSPORT_CMD_RESET, if_neg h1, if_neg h2, if_neg h3, if_neg h4]
  rw [h]
  exact ⟨rfl, rfl, rfl⟩

theorem unknown_command_inert_witness :
    (handle_ble_command 0x07 world_ready).reader = world_ready.reader ∧
      (handle_ble_command 0x07 world_ready).sent = world_ready.sent ∧
      handle_ble_command 0x07 world_ready = world_ready :=
  unknown_command_inert 0x07 world_ready (by decide) (by decide) (by decide) (by decide)

end Pn532
